import Mathlib

/-!
Verification development for the natural-language-to-SQL assistant
(`chatdba` backend): the SQL safety validators, the LLM output cleaner,
and the two stage-graph pipelines (query processing and file ingestion).

Python strings are modelled as Lean `String` and examined as `List Char`
(`String.data`); regular-expression searches from the source are modelled
as executable scans over the character list with the same match semantics.
-/

deriving instance DecidableEq for Except

namespace ChatDba

/-- Python whitespace class `\s` / `str.strip()` white space, restricted to
the ASCII characters (space, tab, newline, carriage return, vertical tab,
form feed). All inputs considered here are ASCII. -/
def pyIsWs (c : Char) : Bool :=
  c == ' ' || c == '\t' || c == '\n' || c == '\r' || c == '\x0b' || c == '\x0c'

/-- Python `str.strip()`: drop whitespace from both ends. -/
def pyStrip (l : List Char) : List Char :=
  ((l.dropWhile pyIsWs).reverse.dropWhile pyIsWs).reverse

/-- Recursion core of `stripFences`, structurally recursive on a fuel
argument so that it evaluates by kernel reduction; every step consumes at
least one character, so fuel equal to the input length never runs out. -/
def stripFencesAux : Nat → List Char → List Char
  | 0, l => l
  | _ + 1, [] => []
  | fuel + 1, c :: cs =>
    if "```sql\n".data.isPrefixOf (c :: cs) then stripFencesAux fuel ((c :: cs).drop 7)
    else if "```sql".data.isPrefixOf (c :: cs) then stripFencesAux fuel ((c :: cs).drop 6)
    else if "```".data.isPrefixOf (c :: cs) then stripFencesAux fuel ((c :: cs).drop 3)
    else c :: stripFencesAux fuel cs

/-- `re.sub(r'```sql\n?|```', '', query)` from `_clean_sql_query`
(llm_service.py): scan left to right, removing each occurrence of
```` ```sql\n ````, ```` ```sql ```` or ```` ``` ```` (alternatives tried
in that order, as the regex engine does). -/
def stripFences (l : List Char) : List Char :=
  stripFencesAux l.length l

/-- Whether `pat` occurs as a contiguous sublist of `s`
(Python `pat in s` / an unanchored literal regex search). -/
def containsSub (pat s : List Char) : Bool :=
  s.tails.any (fun t => pat.isPrefixOf t)

/-- One anchor position of the regex `P\s+Q` (a literal word `p`, one or
more whitespace characters, then a literal word `q` whose first character
is not whitespace): `p` must start here, at least one whitespace character
follows, and after the maximal whitespace run `q` must start. -/
def matchGapAt (p q s : List Char) : Bool :=
  p.isPrefixOf s &&
    (match s.drop p.length with
     | [] => false
     | c :: cs => pyIsWs c && q.isPrefixOf ((c :: cs).dropWhile pyIsWs))

/-- `re.search(r'P\s+Q', s)` for literal words `P`, `Q` (with `Q` starting
with a non-whitespace character): some anchor position matches. -/
def containsGap (p q s : List Char) : Bool :=
  s.tails.any (matchGapAt p q)

/-- Consume one-or-more whitespace characters (`\s+` before a
non-whitespace continuation); `none` if the head is not whitespace. -/
def wsPlus : List Char → Option (List Char)
  | [] => none
  | c :: cs => if pyIsWs c then some ((c :: cs).dropWhile pyIsWs) else none

/-- Consume one-or-more non-whitespace characters (`[^\s]+` before a
whitespace continuation); `none` if the head is whitespace. -/
def nonWsPlus : List Char → Option (List Char)
  | [] => none
  | c :: cs =>
    if pyIsWs c then none
    else some ((c :: cs).dropWhile (fun x => !pyIsWs x))

/-- One anchor position of `UPDATE\s+[^\s]+\s+SET`. -/
def matchUpdateSetAt (s : List Char) : Bool :=
  "UPDATE".data.isPrefixOf s &&
    (match wsPlus (s.drop 6) with
     | none => false
     | some r1 =>
       match nonWsPlus r1 with
       | none => false
       | some r2 =>
         match wsPlus r2 with
         | none => false
         | some r3 => "SET".data.isPrefixOf r3)

/-- `re.search(r'UPDATE\s+[^\s]+\s+SET', s)`. -/
def containsUpdateSet (s : List Char) : Bool :=
  s.tails.any matchUpdateSetAt

/-- One anchor position of `KW\s*\(` for a literal keyword `KW`
(`EXEC` or `EXECUTE`). -/
def matchExecCallAt (kw s : List Char) : Bool :=
  kw.isPrefixOf s && "(".data.isPrefixOf ((s.drop kw.length).dropWhile pyIsWs)

/-- `re.search(r'KW\s*\(', s)`. -/
def containsExecCall (kw s : List Char) : Bool :=
  s.tails.any (matchExecCallAt kw)

/-- After a `--`, the rest must match `\s*[^\n]*$` (Python `$`: end of
string, or just before a newline that ends the string): drop the maximal
whitespace run, then the remainder must be newline-free except possibly a
single final newline. -/
def lineCommentTailOk (r : List Char) : Bool :=
  let t := r.dropWhile pyIsWs
  t.all (fun c => c != '\n') ||
    (t.dropLast.all (fun c => c != '\n') && t.getLast? == some '\n')

/-- One anchor position of `--\s*[^\n]*$`. -/
def matchLineCommentAt (s : List Char) : Bool :=
  "--".data.isPrefixOf s && lineCommentTailOk (s.drop 2)

/-- `re.search(r'--\s*[^\n]*$', s)`. -/
def containsLineComment (s : List Char) : Bool :=
  s.tails.any matchLineCommentAt

/-- One anchor position of the block-comment regex `/\*[\s\S]*?\*/`:
a `/*` here with a `*/` occurring at or after the following position. -/
def matchBlockCommentAt (s : List Char) : Bool :=
  "/*".data.isPrefixOf s && containsSub "*/".data (s.drop 2)

/-- `re.search(r'/\*[\s\S]*?\*/', s)`. -/
def containsBlockComment (s : List Char) : Bool :=
  s.tails.any matchBlockCommentAt

/-- The `dangerous_patterns` loop of `_is_query_safe` (llm_service.py),
applied to the upper-cased query text: true iff some pattern matches. -/
def dangerousPatterns (u : List Char) : Bool :=
  containsGap "DROP".data "TABLE".data u ||
  containsGap "DELETE".data "FROM".data u ||
  containsUpdateSet u ||
  containsGap "INSERT".data "INTO".data u ||
  containsSub "TRUNCATE".data u ||
  containsExecCall "EXEC".data u ||
  containsExecCall "EXECUTE".data u ||
  containsLineComment u ||
  containsBlockComment u

/-- `LLMService._is_query_safe` (llm_service.py, lines 202-227), the
generation-time safety gate: upper-case the query, require the `SELECT`
prefix at position 0, and reject on any dangerous pattern. -/
def is_query_safe (query : String) : Bool :=
  let u := query.data.map Char.toUpper
  "SELECT".data.isPrefixOf u && !(dangerousPatterns u)

/-- The `dangerous_keywords` list of `is_safe_query` (database_service.py). -/
def dangerous_keywords : List String :=
  ["insert", "update", "delete", "drop", "truncate", "alter", "create"]

/-- `DatabaseService.is_safe_query` (database_service.py, lines 79-93), the
execution-time safety gate: lower-case the query, require `select` to lead
after stripping surrounding whitespace, and reject if any bare keyword
occurs anywhere in the (unstripped) lower-cased text. -/
def is_safe_query (query : String) : Bool :=
  let l := query.data.map Char.toLower
  "select".data.isPrefixOf (pyStrip l) &&
    !(dangerous_keywords.any (fun k => containsSub k.data l))

/-- First index at which `SELECT` occurs case-insensitively:
`re.search(r'SELECT', query, re.IGNORECASE)` in `_clean_sql_query`. -/
def findSelectIdx : List Char → Option Nat
  | [] => none
  | c :: cs =>
    if "SELECT".data.isPrefixOf ((c :: cs).map Char.toUpper) then some 0
    else (findSelectIdx cs).map (fun i => i + 1)

/-- `LLMService._clean_sql_query` (llm_service.py, lines 185-200): strip
Markdown code fences and surrounding whitespace; if the result does not
start with `SELECT` (upper-cased), truncate at the first case-insensitive
occurrence of `SELECT`; raise (`none`) only if no `SELECT` occurs at all. -/
def clean_sql_query (query : List Char) : Option (List Char) :=
  let q := pyStrip (stripFences query)
  if "SELECT".data.isPrefixOf (q.map Char.toUpper) then some q
  else
    match findSelectIdx q with
    | some i => some (q.drop i)
    | none => none

/-- `LLMService.generate_sql_query` (llm_service.py, lines 90-112), with
the chat-model call abstracted to its outcome `resp` (the model response
content, or a raised error): strip the response, clean it, and accept it
only if the generation-time gate passes; any failure is re-raised. -/
def generate_sql_query (resp : Except String String) : Except String String :=
  match resp with
  | .error e => .error e
  | .ok content =>
    match clean_sql_query (pyStrip content.data) with
    | none => .error "Query must be a SELECT statement"
    | some q =>
      if is_query_safe (String.mk q) then .ok (String.mk q)
      else .error "Generated query failed safety validation"

/-! ### The stage-graph workflow engine

The pipelines are driven by an external graph-execution library that is
not part of this repository's sources; the specification (§2, §4.2)
describes the intended engine. The engine below is therefore modelled
from the spec, while the stages, transition functions and graph wiring
that instantiate it are translated from `query_workflow.py` and
`upload_workflow.py`. -/

/-- Modelled from the spec: a Workflow Graph (§3, §4.2) — an immutable
registration of named stages, an entry stage name, and a transition
function giving the next stage name from the state after a stage ran
(`none` = a terminal edge). The graph-execution library that interprets
the source's graphs is not under `src/`. -/
structure WGraph (σ : Type) where
  stages : List (String × (σ → σ))
  entry : String
  next : String → σ → Option String

/-- Look up a stage's execution function by name. -/
def findStage (g : WGraph σ) (n : String) : Option (σ → σ) :=
  (g.stages.find? (fun p => p.1 == n)).map Prod.snd

/-- Modelled from the spec: the Workflow Engine run loop (§4.2) — execute
the current stage, merge its output into the running state, follow the
transition function until a terminal edge; track visited stage names and
fail with a `ConfigError` on a revisit or an undeclared stage, so that a
run always terminates. Returns the final state (or the configuration
fault) together with the list of stages executed, in order. -/
def runAux (g : WGraph σ) : Nat → List String → String → σ →
    Except String σ × List String
  | 0, visited, _, _ => (.error "ConfigError: step limit exceeded", visited)
  | fuel + 1, visited, cur, s =>
    if visited.contains cur then
      (.error ("ConfigError: revisited stage " ++ cur), visited)
    else
      match findStage g cur with
      | none => (.error ("ConfigError: unknown stage " ++ cur), visited)
      | some f =>
        let s1 := f s
        match g.next cur s1 with
        | none => (.ok s1, visited ++ [cur])
        | some nxt => runAux g fuel (visited ++ [cur]) nxt s1

/-- Run a graph from its entry stage: result plus the visit trace. -/
def runWT (g : WGraph σ) (s : σ) : Except String σ × List String :=
  runAux g (g.stages.length + 1) [] g.entry s

/-- Run a graph from its entry stage (`graph.ainvoke`): final state only. -/
def runW (g : WGraph σ) (s : σ) : Except String σ :=
  (runWT g s).1

/-- Engine step, successor case: a fresh declared stage with an outgoing
edge advances the run. -/
theorem runAux_step_go (g : WGraph σ) (m : Nat) (vis : List String)
    (cur : String) (s : σ) (f : σ → σ) (nxt : String)
    (hvis : vis.contains cur = false) (hf : findStage g cur = some f)
    (hnext : g.next cur (f s) = some nxt) :
    runAux g (m + 1) vis cur s = runAux g m (vis ++ [cur]) nxt (f s) := by
  have hcur : cur ∉ vis := by simpa using hvis
  simp [runAux, hcur, hf, hnext]

/-- Engine step, terminal case: a fresh declared stage with a terminal
edge ends the run with the stage's output. -/
theorem runAux_step_end (g : WGraph σ) (m : Nat) (vis : List String)
    (cur : String) (s : σ) (f : σ → σ)
    (hvis : vis.contains cur = false) (hf : findStage g cur = some f)
    (hnext : g.next cur (f s) = none) :
    runAux g (m + 1) vis cur s = (.ok (f s), vis ++ [cur]) := by
  have hcur : cur ∉ vis := by simpa using hvis
  simp [runAux, hcur, hf, hnext]

/-- The engine never removes entries from the visit trace. -/
theorem runAux_trace_subset (g : WGraph σ) :
    ∀ (fuel : Nat) (vis : List String) (cur : String) (s : σ),
      vis ⊆ (runAux g fuel vis cur s).2 := by
  intro fuel
  induction fuel with
  | zero => intro vis cur s; simp [runAux]
  | succ m ih =>
    intro vis cur s
    by_cases hcur : cur ∈ vis
    · simp [runAux, hcur]
    · simp only [runAux]
      rw [if_neg (by simpa using hcur)]
      cases hf : findStage g cur with
      | none => simp
      | some f =>
        simp only
        cases hnext : g.next cur (f s) with
        | none => exact List.subset_append_left vis [cur]
        | some nxt =>
          simp only
          exact (List.subset_append_left vis [cur]).trans
            (ih (vis ++ [cur]) nxt (f s))

/-- A fresh declared stage that the engine is about to run appears in the
final visit trace. -/
theorem runAux_mem_trace (g : WGraph σ) (m : Nat) (vis : List String)
    (cur : String) (s : σ) (f : σ → σ)
    (hvis : vis.contains cur = false) (hf : findStage g cur = some f) :
    cur ∈ (runAux g (m + 1) vis cur s).2 := by
  have hmem : cur ∈ vis ++ [cur] := by simp
  have hcur : cur ∉ vis := by simpa using hvis
  simp only [runAux]
  rw [if_neg (by simpa using hcur)]
  rw [hf]
  simp only
  cases hnext : g.next cur (f s) with
  | none => exact hmem
  | some nxt =>
    simp only
    exact runAux_trace_subset g m (vis ++ [cur]) nxt (f s) hmem

/-- The visit trace of a run never repeats a stage: the engine either
ends the run or trips the revisit `ConfigError` first. -/
theorem runAux_trace_nodup (g : WGraph σ) :
    ∀ (fuel : Nat) (vis : List String) (cur : String) (s : σ),
      vis.Nodup → (runAux g fuel vis cur s).2.Nodup := by
  intro fuel
  induction fuel with
  | zero => intro vis cur s h; simpa [runAux] using h
  | succ m ih =>
    intro vis cur s h
    by_cases hcur : cur ∈ vis
    · simpa [runAux, hcur] using h
    · have happ : (vis ++ [cur]).Nodup := by
        simp [List.nodup_append, h, hcur]
      simp only [runAux]
      rw [if_neg (by simpa using hcur)]
      cases hf : findStage g cur with
      | none => simpa using h
      | some f =>
        simp only
        cases hnext : g.next cur (f s) with
        | none => simpa using happ
        | some nxt => simpa using ih (vis ++ [cur]) nxt (f s) happ

/-- A deliberately miswired two-stage graph whose transition functions
form a cycle `a → b → a` (spec §8, revisit detection). -/
def cyclicGraph : WGraph Nat :=
  { stages := [("a", fun s => s + 1), ("b", fun s => s + 1)]
    entry := "a"
    next := fun cur _ => if cur = "a" then some "b" else some "a" }

/-! ### Query pipeline (query_workflow.py)

State fields follow `QueryState` (models/graph_state.py). Python's
"absent or falsy" checks (`not state.get(k)`) are modelled per field:
an `Option String` is truthy iff `some` of a non-empty string, an
`Option (List _)` truthy iff `some` of a non-empty list, a context
record (a non-empty dict in Python) truthy iff present. The external
capabilities (database, retrieval store, chat model) are parameters;
each is the outcome of the one call the stage makes during the run. -/

/-- Python `str.strip()` on a `String`. -/
def pyStripS (s : String) : String := String.mk (pyStrip s.data)

/-- One column of the schema snapshot (`DatabaseService.get_schema`). -/
structure ColumnInfo where
  name : String
  type : String
  nullable : Bool
  primary_key : Bool
deriving DecidableEq

/-- Schema snapshot: table name to columns (`get_schema`'s dict). -/
abbrev Schema := List (String × List ColumnInfo)

/-- One retrieval result (`search_relevant_info` item); only `content`
is consulted downstream (`_create_system_prompt`), so the metadata and
score entries of the Python dict are not modelled. -/
structure Snippet where
  content : String
deriving DecidableEq

/-- The context dict built by `RAGService.get_query_context`. -/
structure RagContext where
  schema_info : List Snippet
  best_practices : List Snippet
  full_schema : Schema
deriving DecidableEq

/-- Truthiness of an optional string state field (`not state.get(k)`):
present and non-empty. -/
def optStrTruthy (o : Option String) : Bool :=
  match o with
  | some s => !(s == "")
  | none => false

/-- Truthiness of an optional list state field: present and non-empty. -/
def optListTruthy (o : Option (List α)) : Bool :=
  match o with
  | some l => !l.isEmpty
  | none => false

/-- `QueryState` (models/graph_state.py), with the execution rows kept
abstract (`ρ`). -/
structure QState (ρ : Type) where
  natural_language_query : String
  max_results : Option Nat
  schema : Option Schema
  rag_context : Option RagContext
  generated_sql : Option String
  execution_result : Option (List ρ)
  explanation : Option String
  error : Option String
  success : Bool
deriving DecidableEq

/-- Outcomes of the external capability calls a query-pipeline run makes:
the schema fetch, the retrieval-context lookup, the chat-model response
for SQL generation, the database execution, and the chat-model response
for the explanation. `Except.error` models a raised exception. -/
structure QueryCaps (ρ : Type) where
  get_schema : Except String Schema
  get_query_context : Except String RagContext
  llm_sql_response : Except String String
  execute : String → Except String (List ρ)
  llm_explain_response : Except String String

/-- `QueryWorkflow.get_schema` (query_workflow.py, lines 60-67). -/
def get_schema_stage (caps : QueryCaps ρ) (st : QState ρ) : QState ρ :=
  match caps.get_schema with
  | .ok sch => { st with schema := some sch }
  | .error e =>
    { st with error := some ("Schema extraction failed: " ++ e), success := false }

/-- `QueryWorkflow.get_rag_context` (query_workflow.py, lines 69-83): on a
missing/empty schema, a domain error; on a retrieval failure, substitute
an empty context (`schema_info = []`, `best_practices = []`, full schema
from the state) and continue without error. -/
def get_rag_context_stage (caps : QueryCaps ρ) (st : QState ρ) : QState ρ :=
  if !(optListTruthy st.schema) then
    { st with error := some "No schema available", success := false }
  else
    match caps.get_query_context with
    | .ok ctx => { st with rag_context := some ctx }
    | .error _ => { st with rag_context := some ⟨[], [], st.schema.getD []⟩ }

/-- `QueryWorkflow.generate_sql` (query_workflow.py, lines 85-98). -/
def generate_sql_stage (caps : QueryCaps ρ) (st : QState ρ) : QState ρ :=
  if st.rag_context.isNone then
    { st with error := some "No context available for SQL generation", success := false }
  else
    match generate_sql_query caps.llm_sql_response with
    | .ok q => { st with generated_sql := some q }
    | .error e =>
      { st with error := some ("SQL generation failed: " ++ e), success := false }

/-- `QueryWorkflow.execute_query` (query_workflow.py, lines 100-117): the
execution-time safety gate, then execution with rows truncated to
`state.get("max_results", 50)` and `success := true`. -/
def execute_query_stage (caps : QueryCaps ρ) (st : QState ρ) : QState ρ :=
  if !(optStrTruthy st.generated_sql) then
    { st with error := some "No SQL query to execute", success := false }
  else
    let sql := st.generated_sql.getD ""
    if !(is_safe_query sql) then
      { st with error := some "Generated query is not safe", success := false }
    else
      match caps.execute sql with
      | .ok rows =>
        { st with execution_result := some (rows.take (st.max_results.getD 50)),
                  success := true }
      | .error e =>
        { st with error := some ("Query execution failed: " ++ e), success := false }

/-- `QueryWorkflow.explain_results` (query_workflow.py, lines 119-133)
combined with `LLMService.explain_results` (llm_service.py, lines
114-146): with no rows or no SQL the state is returned unchanged; a model
failure (at either layer) degrades to the fixed fallback sentence. -/
def explain_results_stage (caps : QueryCaps ρ) (st : QState ρ) : QState ρ :=
  if !(optListTruthy st.execution_result) || !(optStrTruthy st.generated_sql) then st
  else
    let expl :=
      match caps.llm_explain_response with
      | .ok t => pyStripS t
      | .error _ => "Unable to generate explanation for the results."
    { st with explanation := some expl }

/-- `QueryWorkflow.handle_error` (query_workflow.py, lines 135-139). -/
def handle_error_stage (st : QState ρ) : QState ρ :=
  let msg := st.error.getD "Unknown error occurred"
  { st with error := some msg, success := false }

/-- `QueryWorkflow.check_sql_validity` (query_workflow.py, lines 141-151). -/
def check_sql_validity (st : QState ρ) : String :=
  if optStrTruthy st.error || !(optStrTruthy st.generated_sql) then "invalid"
  else
    let u := (st.generated_sql.getD "").data.map Char.toUpper
    if !("SELECT".data.isPrefixOf u) || containsSub "ERROR:".data u then "invalid"
    else "valid"

/-- `QueryWorkflow.check_execution_success` (query_workflow.py, lines 153-157). -/
def check_execution_success (st : QState ρ) : String :=
  if optStrTruthy st.error || !st.success then "error" else "success"

/-- The conditional edges registered in `QueryWorkflow._build_graph`
(query_workflow.py, lines 22-58). -/
def queryNext (cur : String) (st : QState ρ) : Option String :=
  if cur = "get_schema" then some "get_rag_context"
  else if cur = "get_rag_context" then some "generate_sql"
  else if cur = "generate_sql" then
    (if check_sql_validity st = "valid" then some "execute_query"
     else some "handle_error")
  else if cur = "execute_query" then
    (if check_execution_success st = "success" then some "explain_results"
     else some "handle_error")
  else none

/-- The query-pipeline graph built by `QueryWorkflow._build_graph`. -/
def queryGraph (caps : QueryCaps ρ) : WGraph (QState ρ) :=
  { stages :=
      [("get_schema", get_schema_stage caps),
       ("get_rag_context", get_rag_context_stage caps),
       ("generate_sql", generate_sql_stage caps),
       ("execute_query", execute_query_stage caps),
       ("explain_results", explain_results_stage caps),
       ("handle_error", handle_error_stage)]
    entry := "get_schema"
    next := queryNext }

/-- The dict returned by `QueryWorkflow.process_query`. -/
structure QueryResult (ρ : Type) where
  generated_sql : Option String
  execution_result : Option (List ρ)
  explanation : Option String
  success : Bool
  error : Option String
deriving DecidableEq

/-- The initial state assembled by `process_query` (query_workflow.py,
lines 159-165). -/
def initQState (q : String) (maxr : Nat) : QState ρ :=
  { natural_language_query := q, max_results := some maxr, schema := none,
    rag_context := none, generated_sql := none, execution_result := none,
    explanation := none, error := none, success := false }

/-- `QueryWorkflow.process_query` (query_workflow.py, lines 159-182);
the Python default for the max-result count is 50, passed here
explicitly by callers. -/
def process_query (caps : QueryCaps ρ) (q : String) (maxr : Nat) : QueryResult ρ :=
  match runW (queryGraph caps) (initQState q maxr) with
  | .ok fs => ⟨fs.generated_sql, fs.execution_result, fs.explanation, fs.success, fs.error⟩
  | .error e => ⟨none, none, none, false, some ("Workflow execution failed: " ++ e)⟩

/-- The stages a `process_query` run executes, in order. -/
def process_query_trace (caps : QueryCaps ρ) (q : String) (maxr : Nat) : List String :=
  (runWT (queryGraph caps) (initQState q maxr)).2

/-! ### Ingestion (upload) pipeline (upload_workflow.py)

The `files` state key first holds the caller's raw descriptors (dicts
with `filename`/`content`, either possibly missing) and is overwritten by
`validate_files` with enriched records carrying `extension` and `size`;
one record type with optional fields models both shapes. Field reads
written as Python subscripts (`file_info["content"]`) occur only on keys
present at that point and are modelled with `Option.getD`. -/

/-- A `files` entry: raw input (only `filename`/`content`, each possibly
missing) or a validated record (all fields present). -/
structure InFile where
  filename : Option String
  content : Option String
  extension : Option String
  size : Option Nat
deriving DecidableEq

/-- `os.path.splitext(filename)[1].lower()` for a bare file name (no
directory separators): the suffix from the last dot, unless every
character before that dot is itself a dot (leading-dot names such as
`.bashrc` have no extension). -/
def pySplitextExt (name : String) : String :=
  let l := name.data
  let idxs := (List.range l.length).filter (fun i => l.getD i ' ' == '.')
  match idxs.getLast? with
  | none => ""
  | some i =>
    if (l.take i).all (fun c => c == '.') then ""
    else String.mk ((l.drop i).map Char.toLower)

/-- An `extracted_texts` entry; the `error` key is present only for a
failed extraction. -/
structure TextRec where
  filename : String
  text : String
  extension : String
  error : Option String
deriving DecidableEq

/-- A document built in `create_documents`; of its metadata only the
fields consulted later are modelled (the wall-clock `upload_time`
timestamp is omitted). -/
structure Doc where
  page_content : String
  filename : String
  file_type : String
  source : String
deriving DecidableEq

/-- A per-document `results` record. -/
structure UResultRec where
  filename : String
  status : String
  message : String
  chunk_size : Option Nat
deriving DecidableEq

/-- `UploadState` (models/graph_state.py), with the runtime shapes the
workflow actually stores. -/
structure UState where
  files : List InFile
  extracted_texts : List TextRec
  processed_documents : Option (List Doc)
  results : Option (List UResultRec)
  error : Option String
  success : Bool
deriving DecidableEq

/-- Outcomes of the external capability calls an ingestion run makes:
per-file text extraction (`extract_text_from_file`, utils/
text_extraction.py — format parsing is external), the recursive
character splitter (an external library component), and the vector
store (availability plus the batch insertion call). -/
structure UploadCaps where
  extract_text_from_file : String → String → Except String String
  split_documents : List Doc → List Doc
  vector_store_available : Bool
  add_documents : List Doc → Except String Unit

/-- The per-file filter/enrichment loop of `validate_files`
(upload_workflow.py, lines 56-82): drop entries with a missing or empty
filename or content; record extension and size for the rest. -/
def validate_files_list (files : List InFile) : List InFile :=
  files.filterMap (fun f =>
    match f.filename, f.content with
    | some fn, some c =>
      if fn == "" || c == "" then none
      else some ⟨some fn, some c, some (pySplitextExt fn), some c.length⟩
    | _, _ => none)

/-- `UploadWorkflow.validate_files` (upload_workflow.py, lines 56-82). -/
def validate_files_stage (st : UState) : UState :=
  if st.files.isEmpty then
    { st with error := some "No files provided", success := false }
  else { st with files := validate_files_list st.files }

/-- The per-file body of `extract_text` (upload_workflow.py, lines
92-110): a failed extraction is recorded as a per-file error annotation
instead of aborting the run. -/
def extract_file (caps : UploadCaps) (f : InFile) : TextRec :=
  match caps.extract_text_from_file (f.content.getD "") (f.extension.getD "") with
  | .ok txt => ⟨f.filename.getD "", txt, f.extension.getD "", none⟩
  | .error e =>
    ⟨f.filename.getD "", "Failed to extract text: " ++ e, f.extension.getD "", some e⟩

/-- `UploadWorkflow.extract_text` (upload_workflow.py, lines 84-115). -/
def extract_text_stage (caps : UploadCaps) (st : UState) : UState :=
  if st.files.isEmpty then
    { st with error := some "No files to process", success := false }
  else { st with extracted_texts := st.files.map (extract_file caps) }

/-- The document-construction loop of `create_documents`
(upload_workflow.py, lines 127-141): skip entries whose `error`
annotation is truthy, build a document from each remaining entry. -/
def build_documents (ts : List TextRec) : List Doc :=
  (ts.filter (fun t => !(optStrTruthy t.error))).map
    (fun t => ⟨t.text, t.filename, t.extension, "upload"⟩)

/-- `UploadWorkflow.create_documents` (upload_workflow.py, lines
117-153): build documents from clean extractions and split them into
chunks. -/
def create_documents_stage (caps : UploadCaps) (st : UState) : UState :=
  if st.extracted_texts.isEmpty then
    { st with error := some "No extracted text to process", success := false }
  else
    let docs := caps.split_documents (build_documents st.extracted_texts)
    { st with processed_documents := some docs }

/-- `UploadWorkflow.add_to_vector_store` (upload_workflow.py, lines
155-192): insert all chunks in one call; on success emit one success
record per chunk and set `success := true`. -/
def add_to_vector_store_stage (caps : UploadCaps) (st : UState) : UState :=
  let docs := st.processed_documents.getD []
  if docs.isEmpty then
    { st with error := some "No documents to add", success := false }
  else if !caps.vector_store_available then
    let rs := docs.map (fun d => ⟨d.filename, "error", "Vector store not available", none⟩)
    { st with error := some "Vector store not available", success := false, results := some rs }
  else
    match caps.add_documents docs with
    | .ok _ =>
      let rs := docs.map (fun d =>
        (⟨d.filename, "success", "File processed successfully", some d.page_content.length⟩ : UResultRec))
      { st with results := some rs, success := true }
    | .error e =>
      { st with error := some ("Failed to add documents: " ++ e), success := false }

/-- `UploadWorkflow.handle_error` (upload_workflow.py, lines 194-213):
one failure record per entry of the state's current `files` list. -/
def handle_error_upload_stage (st : UState) : UState :=
  let msg := st.error.getD "Unknown error occurred"
  let rs := st.files.map (fun f => (⟨f.filename.getD "unknown", "error", msg, none⟩ : UResultRec))
  { st with error := some msg, success := false, results := some rs }

/-- `UploadWorkflow.check_documents_created` (upload_workflow.py,
lines 215-219). -/
def check_documents_created (st : UState) : String :=
  if optStrTruthy st.error || !(optListTruthy st.processed_documents) then "error"
  else "success"

/-- `UploadWorkflow.check_upload_success` (upload_workflow.py,
lines 221-225). -/
def check_upload_success (st : UState) : String :=
  if optStrTruthy st.error || !st.success then "error" else "success"

/-- The conditional edges registered in `UploadWorkflow._build_graph`
(upload_workflow.py, lines 20-54). -/
def uploadNext (cur : String) (st : UState) : Option String :=
  if cur = "validate_files" then some "extract_text"
  else if cur = "extract_text" then some "create_documents"
  else if cur = "create_documents" then
    (if check_documents_created st = "success" then some "add_to_vector_store"
     else some "handle_error")
  else if cur = "add_to_vector_store" then
    (if check_upload_success st = "success" then none else some "handle_error")
  else none

/-- The ingestion-pipeline graph built by `UploadWorkflow._build_graph`. -/
def uploadGraph (caps : UploadCaps) : WGraph UState :=
  { stages :=
      [("validate_files", validate_files_stage),
       ("extract_text", extract_text_stage caps),
       ("create_documents", create_documents_stage caps),
       ("add_to_vector_store", add_to_vector_store_stage caps),
       ("handle_error", handle_error_upload_stage)]
    entry := "validate_files"
    next := uploadNext }

/-- The dict returned by `UploadWorkflow.process_upload`. -/
structure UploadResult where
  processed_files : Nat
  successful : Nat
  failed : Nat
  results : List UResultRec
  success : Bool
  error : Option String
deriving DecidableEq

/-- The initial state assembled by `process_upload` (upload_workflow.py,
lines 229-232). -/
def initUState (files : List InFile) : UState :=
  ⟨files, [], none, none, none, false⟩

/-- `UploadWorkflow.process_upload` (upload_workflow.py, lines 227-264):
`processed_files` counts the caller's original list; `successful` and
`failed` count the per-record statuses of the final state's `results`. -/
def process_upload (caps : UploadCaps) (files : List InFile) : UploadResult :=
  match runW (uploadGraph caps) (initUState files) with
  | .ok fs =>
    let rs := fs.results.getD []
    ⟨files.length,
     (rs.filter (fun r => r.status == "success")).length,
     (rs.filter (fun r => r.status == "error")).length,
     rs, fs.success, fs.error⟩
  | .error e =>
    ⟨files.length, 0, files.length,
     files.map (fun f =>
       ⟨f.filename.getD "unknown", "error", "Workflow execution failed: " ++ e, none⟩),
     false, some ("Workflow execution failed: " ++ e)⟩

/-- The stages a `process_upload` run executes, in order. -/
def process_upload_trace (caps : UploadCaps) (files : List InFile) : List String :=
  (runWT (uploadGraph caps) (initUState files)).2

/-! ### Supporting lemmas on the pattern scanners -/

/-- Upper-casing then lower-casing a character lower-cases it (the core
conversions only move the basic-latin letter ranges). -/
theorem toLower_toUpper (c : Char) : c.toUpper.toLower = c.toLower := by
  simp only [Char.toUpper, Char.toLower]
  by_cases h : c.toNat ≥ 97 ∧ c.toNat ≤ 122
  · rw [if_pos h]
    have hv : Nat.isValidChar (c.toNat - 32) := Or.inl (by omega)
    have ht : (Char.ofNat (c.toNat - 32)).toNat = c.toNat - 32 := by
      rw [Char.ofNat, dif_pos hv]; rfl
    rw [ht, if_pos (⟨by omega, by omega⟩ : c.toNat - 32 ≥ 65 ∧ c.toNat - 32 ≤ 90),
      if_neg (by omega : ¬(c.toNat ≥ 65 ∧ c.toNat ≤ 90)),
      show c.toNat - 32 + 32 = c.toNat from by omega, Char.ofNat_toNat]
  · rw [if_neg h]

/-- A successful whitespace-gap pattern scan exhibits its first word as a
contiguous sublist. -/
theorem containsGap_isInfix (p q s : List Char) (h : containsGap p q s = true) :
    p <:+: s := by
  unfold containsGap at h
  obtain ⟨t, ht, hm⟩ := List.any_eq_true.1 h
  rw [matchGapAt, Bool.and_eq_true] at hm
  have hp : p <+: t := List.isPrefixOf_iff_prefix.1 hm.1
  exact hp.isInfix.trans ((List.mem_tails ..).1 ht).isInfix

/-- A successful `UPDATE … SET` scan exhibits `UPDATE` as a contiguous
sublist. -/
theorem containsUpdateSet_isInfix (s : List Char)
    (h : containsUpdateSet s = true) : "UPDATE".data <:+: s := by
  unfold containsUpdateSet at h
  obtain ⟨t, ht, hm⟩ := List.any_eq_true.1 h
  rw [matchUpdateSetAt, Bool.and_eq_true] at hm
  have hp : "UPDATE".data <+: t := List.isPrefixOf_iff_prefix.1 hm.1
  exact hp.isInfix.trans ((List.mem_tails ..).1 ht).isInfix

/-- A successful substring scan exhibits the pattern as a contiguous
sublist. -/
theorem containsSub_isInfix (pat s : List Char) (h : containsSub pat s = true) :
    pat <:+: s := by
  unfold containsSub at h
  obtain ⟨t, ht, hm⟩ := List.any_eq_true.1 h
  exact ( List.isPrefixOf_iff_prefix.1 hm).isInfix.trans
    ((List.mem_tails ..).1 ht).isInfix

/-- Conversely, a contiguous sublist is found by the substring scan. -/
theorem isInfix_containsSub (pat s : List Char) (h : pat <:+: s) :
    containsSub pat s = true := by
  obtain ⟨a, b, rfl⟩ := h
  refine List.any_eq_true.2 ⟨pat ++ b, ?_, ?_⟩
  · exact (List.mem_tails ..).2 ⟨a, by simp⟩
  · exact List.isPrefixOf_iff_prefix.2 ⟨b, rfl⟩

/-- A contiguous sublist of the upper-cased text is a contiguous sublist
of the lower-cased text, after lower-casing it. -/
theorem upper_infix_lower (w t : List Char)
    (h : w.map Char.toUpper <:+: t.map Char.toUpper) :
    w.map Char.toLower <:+: t.map Char.toLower := by
  have h2 := h.map Char.toLower
  rw [List.map_map, List.map_map] at h2
  have he : Char.toLower ∘ Char.toUpper = Char.toLower := funext toLower_toUpper
  rwa [he] at h2

/-- A lower-case dangerous keyword occurring (upper-cased) in the
upper-cased query text forces the execution-time gate to reject. -/
theorem keyword_infix_unsafe (t k : String) (hk : k ∈ dangerous_keywords)
    (hlow : k.data.map Char.toLower = k.data)
    (h : k.data.map Char.toUpper <:+: t.data.map Char.toUpper) :
    is_safe_query t = false := by
  have h2 := upper_infix_lower k.data t.data h
  rw [hlow] at h2
  have hany : dangerous_keywords.any
      (fun s => containsSub s.data (t.data.map Char.toLower)) = true :=
    List.any_eq_true.2 ⟨k, hk, isInfix_containsSub _ _ h2⟩
  unfold is_safe_query
  simp [hany]

/-! ### Claim C2 -/

/-- The generation-time acceptance condition exactly as the claim (and
spec §4.3/§8) words it, stated from the spec's words for comparison with
the source's `is_query_safe`: after trimming and Markdown code-fence
stripping, the text must case-insensitively start with `SELECT` and
contain none of the reject patterns. -/
def specGenGateCond (t : String) : Bool :=
  let u := (pyStrip (stripFences t.data)).map Char.toUpper
  "SELECT".data.isPrefixOf u && !(dangerousPatterns u)

/-- C2 counterexample: the claim quantifies the conditions over the
trimmed, fence-stripped text, but the source validator checks its input
as given, without stripping. On the input `"SELECT DROP ``` TABLE"` the
validator returns true (the backticks break the `DROP\s+TABLE` match),
yet after fence-stripping the text contains the `DROP TABLE` reject
pattern, so the claimed property is false at this input. -/
theorem c2_counterexample :
    is_query_safe "SELECT DROP ``` TABLE" = true ∧
      specGenGateCond "SELECT DROP ``` TABLE" = false := by
  decide

/-- C2 (amended): the validator `is_query_safe` applies the two
conditions — leading `SELECT` and absence of every reject pattern — to
its input as given; trimming and fence-stripping happen in the separate
cleaning step before the validator runs. Consequently every model
output accepted by the generation-time gate yields a cleaned query text
that case-insensitively starts with `SELECT` and contains none of the
reject patterns; any candidate failing either condition is rejected. -/
theorem c2_generation_gate_accepts_only_clean_selects (resp q : String)
    (h : generate_sql_query (.ok resp) = .ok q) :
    "SELECT".data.isPrefixOf (q.data.map Char.toUpper) = true ∧
      dangerousPatterns (q.data.map Char.toUpper) = false ∧
      is_query_safe q = true := by
  cases hc : clean_sql_query (pyStrip resp.data) with
  | none => simp only [generate_sql_query, hc] at h; cases h
  | some l =>
    simp only [generate_sql_query, hc] at h
    by_cases hs : is_query_safe (String.mk l) = true
    · rw [if_pos hs] at h
      cases h
      refine ⟨?_, ?_, hs⟩
      · have h2 := hs
        unfold is_query_safe at h2
        rw [Bool.and_eq_true] at h2
        exact h2.1
      · have h2 := hs
        unfold is_query_safe at h2
        rw [Bool.and_eq_true] at h2
        simpa using h2.2
    · rw [if_neg hs] at h
      cases h

/-- Witness for C2 (amended) at the concrete accepted output
`"SELECT 1"`. -/
theorem c2_generation_gate_accepts_only_clean_selects_witness :
    "SELECT".data.isPrefixOf ("SELECT 1".data.map Char.toUpper) = true ∧
      dangerousPatterns ("SELECT 1".data.map Char.toUpper) = false ∧
      is_query_safe "SELECT 1" = true :=
  c2_generation_gate_accepts_only_clean_selects "SELECT 1" "SELECT 1" (by decide)

/-! ### Claim C3 -/

/-- C3 counterexample: `"SELECT 1 --"` is rejected by the generation-time
gate (`is_query_safe`, trailing line-comment pattern) yet accepted by the
execution-time gate (`is_safe_query`), so the execution-time gate is not
stricter than the generation-time gate. -/
theorem c3_counterexample :
    is_query_safe "SELECT 1 --" = false ∧ is_safe_query "SELECT 1 --" = true := by
  decide

/-- C3 (amended): the two gates are incomparable in general — comment,
`EXEC(`/`EXECUTE(` and leading-whitespace rejections of the
generation-time gate do not transfer — but the five dangerous-statement
keyword patterns do transfer: any text the generation-time gate rejects
for containing `DROP TABLE`, `DELETE FROM`, `UPDATE … SET`,
`INSERT INTO` or `TRUNCATE` (upper-cased) is also rejected by the
execution-time gate's bare-keyword scan. -/
theorem c3_amended_keyword_rejections_transfer (t : String)
    (h : containsGap "DROP".data "TABLE".data (t.data.map Char.toUpper) = true ∨
         containsGap "DELETE".data "FROM".data (t.data.map Char.toUpper) = true ∨
         containsUpdateSet (t.data.map Char.toUpper) = true ∨
         containsGap "INSERT".data "INTO".data (t.data.map Char.toUpper) = true ∨
         containsSub "TRUNCATE".data (t.data.map Char.toUpper) = true) :
    is_safe_query t = false := by
  rcases h with h | h | h | h | h
  · refine keyword_infix_unsafe t "drop" (by decide) (by decide) ?_
    have h1 := containsGap_isInfix _ _ _ h
    rwa [show ("drop".data.map Char.toUpper) = "DROP".data from by decide]
  · refine keyword_infix_unsafe t "delete" (by decide) (by decide) ?_
    have h1 := containsGap_isInfix _ _ _ h
    rwa [show ("delete".data.map Char.toUpper) = "DELETE".data from by decide]
  · refine keyword_infix_unsafe t "update" (by decide) (by decide) ?_
    have h1 := containsUpdateSet_isInfix _ h
    rwa [show ("update".data.map Char.toUpper) = "UPDATE".data from by decide]
  · refine keyword_infix_unsafe t "insert" (by decide) (by decide) ?_
    have h1 := containsGap_isInfix _ _ _ h
    rwa [show ("insert".data.map Char.toUpper) = "INSERT".data from by decide]
  · refine keyword_infix_unsafe t "truncate" (by decide) (by decide) ?_
    have h1 := containsSub_isInfix _ _ h
    rwa [show ("truncate".data.map Char.toUpper) = "TRUNCATE".data from by decide]

/-- Witness for C3 (amended) at `"SELECT a FROM b; DROP TABLE users"`. -/
theorem c3_amended_keyword_rejections_transfer_witness :
    is_safe_query "SELECT a FROM b; DROP TABLE users" = false :=
  c3_amended_keyword_rejections_transfer "SELECT a FROM b; DROP TABLE users"
    (Or.inl (by decide))

/-! ### Claim C7 -/

/-- C7: every pipeline run terminates in finitely many steps — the visit
trace of any run of the engine is duplicate-free, so no stage is executed
twice in one run — and a hand-built graph whose transition functions form
a cycle makes the run fail with a configuration fault (the revisit
trip-wire) rather than loop forever. -/
theorem c7_runs_terminate_and_cycles_fault :
    (∀ (σ : Type) (g : WGraph σ) (s : σ), (runWT g s).2.Nodup) ∧
      runW cyclicGraph 0 = .error "ConfigError: revisited stage a" := by
  refine ⟨fun σ g s => runAux_trace_nodup g _ [] g.entry s (by simp), ?_⟩
  decide

/-! ### Claim C1 -/

/-- A one-table demo schema for the concrete query-pipeline runs. -/
def c1Schema : Schema := [("users", [⟨"id", "INTEGER", false, true⟩])]

/-- Capabilities for the C1 scenario: the model capability returns
`DROP TABLE users; SELECT 1`; every other capability succeeds. -/
def c1Caps : QueryCaps Nat :=
  { get_schema := .ok c1Schema
    get_query_context := .ok ⟨[], [], c1Schema⟩
    llm_sql_response := .ok "DROP TABLE users; SELECT 1"
    execute := fun _ => .ok [7]
    llm_explain_response := .ok "one row" }

/-- C1 counterexample: when the model capability returns
`DROP TABLE users; SELECT 1`, the pipeline does not reach `handle_error`
and does not end with `success = false` and a non-empty error — the run
succeeds with no error, contradicting the claimed rejection. -/
theorem c1_counterexample :
    (process_query c1Caps "list users" 50).success = true ∧
      (process_query c1Caps "list users" 50).error = none ∧
      "handle_error" ∉ process_query_trace c1Caps "list users" 50 := by
  decide

/-- C1 (amended): a model output that does not itself qualify as safe is
not necessarily rejected — `_clean_sql_query` auto-rewrites any output
that does not start with `SELECT` by truncating it at its first embedded
`SELECT`. For `DROP TABLE users; SELECT 1` the cleaner yields `SELECT 1`,
which passes the generation-time gate, so the pipeline proceeds to
`execute_query` and, with execution succeeding, terminates successfully;
only an output containing no `SELECT` at all is rejected. -/
theorem c1_amended_truncation_passes_gate :
    generate_sql_query (.ok "DROP TABLE users; SELECT 1") = .ok "SELECT 1" ∧
      (process_query c1Caps "list users" 50).generated_sql = some "SELECT 1" ∧
      "execute_query" ∈ process_query_trace c1Caps "list users" 50 ∧
      generate_sql_query (.ok "no statement here") =
        .error "Query must be a SELECT statement" := by
  decide

/-! ### Claim C8 -/

/-- Inversion of an accepted generation-gate outcome: the accepted query
starts with `SELECT` (upper-cased), carries no dangerous pattern, passes
`is_query_safe`, and is non-empty. -/
theorem generate_sql_query_ok_inv (resp : Except String String) (q : String)
    (h : generate_sql_query resp = .ok q) :
    "SELECT".data.isPrefixOf (q.data.map Char.toUpper) = true ∧
      dangerousPatterns (q.data.map Char.toUpper) = false ∧
      is_query_safe q = true ∧ q ≠ "" := by
  cases resp with
  | error e => simp [generate_sql_query] at h
  | ok content =>
    cases hc : clean_sql_query (pyStrip content.data) with
    | none => simp only [generate_sql_query, hc] at h; cases h
    | some l =>
      simp only [generate_sql_query, hc] at h
      by_cases hs : is_query_safe (String.mk l) = true
      · rw [if_pos hs] at h
        cases h
        have h2 := hs
        unfold is_query_safe at h2
        rw [Bool.and_eq_true] at h2
        refine ⟨h2.1, by simpa using h2.2, hs, ?_⟩
        intro hq
        have hl : l = [] := by
          have := congrArg String.data hq
          simpa using this
        rw [hl] at h2
        exact absurd h2.1 (by decide)
      · rw [if_neg hs] at h
        cases h

/-- C8: when the execute stage runs a non-empty generated statement that
passes the execution-time gate and the database returns rows, the stage
stores exactly the rows truncated to the requested max-result count
(`state.get("max_results", 50)`) — so at most that many rows — and sets
`success := true`. -/
theorem c8_execute_truncates_and_sets_success (ρ : Type) (caps : QueryCaps ρ)
    (st : QState ρ) (sql : String) (rows : List ρ)
    (hsql : st.generated_sql = some sql) (hne : sql ≠ "")
    (hsafe : is_safe_query sql = true)
    (hexec : caps.execute sql = .ok rows) :
    execute_query_stage caps st =
      { st with execution_result := some (rows.take (st.max_results.getD 50)),
                success := true } ∧
      (rows.take (st.max_results.getD 50)).length ≤ st.max_results.getD 50 := by
  constructor
  · unfold execute_query_stage
    rw [hsql]
    simp [optStrTruthy, hne, hsafe, hexec]
  · simp [List.length_take]

/-- Concrete capabilities for the C8 witness: execution returns five
rows. -/
def c8Caps : QueryCaps Nat :=
  { get_schema := .ok c1Schema
    get_query_context := .ok ⟨[], [], c1Schema⟩
    llm_sql_response := .ok "SELECT 1"
    execute := fun _ => .ok [1, 2, 3, 4, 5]
    llm_explain_response := .ok "rows" }

/-- Concrete stage input for the C8 witness: max-result count 3, a safe
generated statement. -/
def c8St : QState Nat :=
  { initQState "q" 3 with
      schema := some c1Schema
      rag_context := some ⟨[], [], c1Schema⟩
      generated_sql := some "SELECT 1" }

/-- Witness for C8 at a concrete stage input: five rows, max-result
count 3. -/
theorem c8_execute_truncates_and_sets_success_witness :
    (execute_query_stage c8Caps c8St =
      { c8St with execution_result := some ([1, 2, 3, 4, 5].take (c8St.max_results.getD 50)),
                  success := true } ∧
      ([1, 2, 3, 4, 5].take (c8St.max_results.getD 50)).length ≤ c8St.max_results.getD 50) :=
  c8_execute_truncates_and_sets_success Nat c8Caps c8St "SELECT 1" [1, 2, 3, 4, 5]
    (by decide) (by decide) (by decide) (by decide)

/-! ### Claim C4 -/

/-- C4: if the retrieval capability raises, the retrieve-context stage
substitutes an empty context (empty `schema_info` and `best_practices`,
the schema from the state) instead of setting an error, and — given a
safe generated statement free of the `ERROR:` sentinel — the run still
reaches the `execute_query` stage instead of terminating in
`handle_error` because of the retrieval failure. -/
theorem c4_retrieval_failure_degrades (ρ : Type) (caps : QueryCaps ρ)
    (q : String) (n : Nat) (sch : Schema) (e sql : String)
    (hsch : caps.get_schema = .ok sch) (hne : sch ≠ [])
    (hrag : caps.get_query_context = .error e)
    (hgen : generate_sql_query caps.llm_sql_response = .ok sql)
    (hsent : containsSub "ERROR:".data (sql.data.map Char.toUpper) = false) :
    get_rag_context_stage caps { initQState q n with schema := some sch } =
      { initQState q n with schema := some sch, rag_context := some ⟨[], [], sch⟩ } ∧
      "execute_query" ∈ process_query_trace caps q n := by
  obtain ⟨hpre, hdang, hsafeGen, hneq⟩ := generate_sql_query_ok_inv _ _ hgen
  have hragstage : ∀ st : QState ρ, st.schema = some sch →
      get_rag_context_stage caps st = { st with rag_context := some ⟨[], [], sch⟩ } := by
    intro st hst
    unfold get_rag_context_stage
    rw [hst, hrag]
    simp [optListTruthy, hne]
  have hgenstage : ∀ st : QState ρ, st.rag_context = some ⟨[], [], sch⟩ →
      generate_sql_stage caps st = { st with generated_sql := some sql } := by
    intro st hst
    unfold generate_sql_stage
    rw [hst, hgen]
    simp
  have hcheck : ∀ st : QState ρ, st.error = none → st.generated_sql = some sql →
      check_sql_validity st = "valid" := by
    intro st h1 h2
    unfold check_sql_validity
    rw [h1, h2]
    simp [optStrTruthy, hneq, hpre, hsent]
  have hqn : ∀ st : QState ρ, check_sql_validity st = "valid" →
      (queryGraph caps).next "generate_sql" st = some "execute_query" := by
    intro st hv
    show queryNext "generate_sql" st = some "execute_query"
    unfold queryNext
    rw [if_neg (by decide), if_neg (by decide), if_pos rfl, if_pos hv]
  refine ⟨hragstage _ rfl, ?_⟩
  have hs1 : get_schema_stage caps (initQState q n) =
      { initQState q n with schema := some sch } := by
    unfold get_schema_stage
    rw [hsch]
  unfold process_query_trace runWT
  rw [show (queryGraph caps).stages.length + 1 = 6 + 1 from rfl,
    show (queryGraph caps).entry = "get_schema" from rfl]
  rw [runAux_step_go (queryGraph caps) 6 [] "get_schema" (initQState q n)
    (get_schema_stage caps) "get_rag_context" (by decide) rfl rfl]
  rw [hs1]
  simp only [List.nil_append]
  rw [runAux_step_go (queryGraph caps) 5 ["get_schema"] "get_rag_context"
    { initQState q n with schema := some sch } (get_rag_context_stage caps)
    "generate_sql" (by decide) rfl rfl]
  rw [hragstage _ rfl]
  simp only [List.cons_append, List.nil_append]
  have hs3 := hgenstage { { initQState q n with schema := some sch } with
    rag_context := some ⟨[], [], sch⟩ } rfl
  have hv3 := hcheck { { { initQState q n with schema := some sch } with
    rag_context := some ⟨[], [], sch⟩ } with generated_sql := some sql } rfl rfl
  rw [runAux_step_go (queryGraph caps) 4 ["get_schema", "get_rag_context"]
    "generate_sql" _ (generate_sql_stage caps) "execute_query" (by decide) rfl
    (by rw [hs3]; exact hqn _ hv3)]
  rw [hs3]
  simp only [List.cons_append, List.nil_append]
  exact runAux_mem_trace (queryGraph caps) 3
    ["get_schema", "get_rag_context", "generate_sql"] "execute_query" _
    (execute_query_stage caps) (by decide) rfl

/-- Concrete capabilities for the C4 witness: the retrieval capability
raises on its call, everything else succeeds with a safe statement. -/
def c4Caps : QueryCaps Nat :=
  { get_schema := .ok c1Schema
    get_query_context := .error "retrieval down"
    llm_sql_response := .ok "SELECT 1"
    execute := fun _ => .ok []
    llm_explain_response := .ok "no rows" }

/-- Witness for C4 at the concrete failing-retrieval capabilities. -/
theorem c4_retrieval_failure_degrades_witness :
    get_rag_context_stage c4Caps { initQState "q" 50 with schema := some c1Schema } =
      { { initQState "q" 50 with schema := some c1Schema } with
          rag_context := some ⟨[], [], c1Schema⟩ } ∧
      "execute_query" ∈ process_query_trace c4Caps "q" 50 :=
  c4_retrieval_failure_degrades Nat c4Caps "q" 50 c1Schema "retrieval down" "SELECT 1"
    (by decide) (by decide) (by decide) (by decide) (by decide)

/-! ### Claim C9 -/

/-- Appending to a non-empty string never yields the empty string. -/
theorem append_ne_empty (a b : String) (h : a.length ≠ 0) : a ++ b ≠ "" := by
  intro he
  have h2 := congrArg String.length he
  rw [String.length_append, show ("" : String).length = 0 from rfl] at h2
  omega

/-- A state's error field is either unset or a non-empty message. Every
stage of the query pipeline preserves this. -/
def errOk (s : QState ρ) : Prop :=
  s.error = none ∨ ∃ m, s.error = some m ∧ m ≠ ""

theorem errOk_get_schema (caps : QueryCaps ρ) (st : QState ρ) (h : errOk st) :
    errOk (get_schema_stage caps st) := by
  cases hc : caps.get_schema with
  | ok sch =>
    have he : (get_schema_stage caps st).error = st.error := by
      simp [get_schema_stage, hc]
    unfold errOk
    rw [he]
    exact h
  | error e =>
    refine Or.inr ⟨"Schema extraction failed: " ++ e, ?_,
      append_ne_empty "Schema extraction failed: " e (by decide)⟩
    simp [get_schema_stage, hc]

theorem errOk_get_rag_context (caps : QueryCaps ρ) (st : QState ρ) (h : errOk st) :
    errOk (get_rag_context_stage caps st) := by
  cases hb : optListTruthy st.schema with
  | false =>
    refine Or.inr ⟨"No schema available", ?_, by decide⟩
    simp [get_rag_context_stage, hb]
  | true =>
    cases hc : caps.get_query_context with
    | ok ctx =>
      have he : (get_rag_context_stage caps st).error = st.error := by
        simp [get_rag_context_stage, hb, hc]
      unfold errOk
      rw [he]
      exact h
    | error e =>
      have he : (get_rag_context_stage caps st).error = st.error := by
        simp [get_rag_context_stage, hb, hc]
      unfold errOk
      rw [he]
      exact h

theorem errOk_generate_sql (caps : QueryCaps ρ) (st : QState ρ) (h : errOk st) :
    errOk (generate_sql_stage caps st) := by
  cases hb : st.rag_context.isNone with
  | true =>
    refine Or.inr ⟨"No context available for SQL generation", ?_, by decide⟩
    simp [generate_sql_stage, hb]
  | false =>
    cases hc : generate_sql_query caps.llm_sql_response with
    | ok q2 =>
      have he : (generate_sql_stage caps st).error = st.error := by
        simp [generate_sql_stage, hb, hc]
      unfold errOk
      rw [he]
      exact h
    | error e =>
      refine Or.inr ⟨"SQL generation failed: " ++ e, ?_,
        append_ne_empty "SQL generation failed: " e (by decide)⟩
      simp [generate_sql_stage, hb, hc]

/-- Inversion of `check_sql_validity st = "valid"`: no truthy error and a
truthy generated statement. -/
theorem check_sql_validity_valid_inv (st : QState ρ)
    (h : check_sql_validity st = "valid") :
    optStrTruthy st.error = false ∧ optStrTruthy st.generated_sql = true := by
  cases he : optStrTruthy st.error with
  | true =>
    exfalso
    unfold check_sql_validity at h
    rw [he] at h
    simp at h
  | false =>
    cases hg : optStrTruthy st.generated_sql with
    | false =>
      exfalso
      unfold check_sql_validity at h
      rw [he, hg] at h
      simp at h
    | true => exact ⟨rfl, rfl⟩

/-- Inversion of `check_execution_success st = "success"`: no truthy
error and the success flag set. -/
theorem check_execution_success_inv (st : QState ρ)
    (h : check_execution_success st = "success") :
    optStrTruthy st.error = false ∧ st.success = true := by
  cases he : optStrTruthy st.error with
  | true =>
    exfalso
    unfold check_execution_success at h
    rw [he] at h
    simp at h
  | false =>
    cases hs : st.success with
    | false =>
      exfalso
      unfold check_execution_success at h
      rw [he, hs] at h
      simp at h
    | true => exact ⟨rfl, rfl⟩

/-- Decomposition of a successful execute stage: `success = true` can
only come from the row-returning branch, which leaves every other field
of the state unchanged. -/
theorem execute_stage_success_inv (caps : QueryCaps ρ) (st : QState ρ)
    (h : (execute_query_stage caps st).success = true) :
    ∃ rows, caps.execute (st.generated_sql.getD "") = .ok rows ∧
      execute_query_stage caps st =
        { st with execution_result := some (rows.take (st.max_results.getD 50)),
                  success := true } := by
  cases h1 : optStrTruthy st.generated_sql with
  | false => simp [execute_query_stage, h1] at h
  | true =>
    cases h2 : is_safe_query (st.generated_sql.getD "") with
    | false => simp [execute_query_stage, h1, h2] at h
    | true =>
      cases hex : caps.execute (st.generated_sql.getD "") with
      | error e => simp [execute_query_stage, h1, h2, hex] at h
      | ok rows =>
        refine ⟨rows, rfl, ?_⟩
        simp [execute_query_stage, h1, h2, hex]

/-- `queryNext` at `generate_sql`, invalid branch. -/
theorem qnext_gen_invalid (caps : QueryCaps ρ) (st : QState ρ)
    (h : ¬ check_sql_validity st = "valid") :
    (queryGraph caps).next "generate_sql" st = some "handle_error" := by
  show queryNext "generate_sql" st = some "handle_error"
  unfold queryNext
  rw [if_neg (by decide), if_neg (by decide), if_pos rfl, if_neg h]

/-- `queryNext` at `generate_sql`, valid branch. -/
theorem qnext_gen_valid (caps : QueryCaps ρ) (st : QState ρ)
    (h : check_sql_validity st = "valid") :
    (queryGraph caps).next "generate_sql" st = some "execute_query" := by
  show queryNext "generate_sql" st = some "execute_query"
  unfold queryNext
  rw [if_neg (by decide), if_neg (by decide), if_pos rfl, if_pos h]

/-- `queryNext` at `execute_query`, success branch. -/
theorem qnext_exec_success (caps : QueryCaps ρ) (st : QState ρ)
    (h : check_execution_success st = "success") :
    (queryGraph caps).next "execute_query" st = some "explain_results" := by
  show queryNext "execute_query" st = some "explain_results"
  unfold queryNext
  rw [if_neg (by decide), if_neg (by decide), if_neg (by decide), if_pos rfl, if_pos h]

/-- `queryNext` at `execute_query`, error branch. -/
theorem qnext_exec_error (caps : QueryCaps ρ) (st : QState ρ)
    (h : ¬ check_execution_success st = "success") :
    (queryGraph caps).next "execute_query" st = some "handle_error" := by
  show queryNext "execute_query" st = some "handle_error"
  unfold queryNext
  rw [if_neg (by decide), if_neg (by decide), if_neg (by decide), if_pos rfl, if_neg h]

/-- C9 (amended): every terminal result of the query pipeline exposes
all five fields of the result record; whenever `success = true` the
`error` field is absent; and on every successful run whose execution
result is non-empty (truthy) the `explanation` field is populated —
either with the stripped model text or with the fixed fallback sentence.
(When the execution result is an empty row list, the explain stage
leaves `explanation` unset; see the counterexample.) -/
theorem c9_success_means_no_error_and_explained (ρ : Type) (caps : QueryCaps ρ)
    (q : String) (n : Nat) :
    ((process_query caps q n).success = true → (process_query caps q n).error = none) ∧
      ((process_query caps q n).success = true →
        optListTruthy (process_query caps q n).execution_result = true →
        (process_query caps q n).explanation.isSome = true) := by
  have finish_ok : ∀ fs : QState ρ,
      runW (queryGraph caps) (initQState q n) = .ok fs →
      (fs.success = true → fs.error = none) →
      (fs.success = true → optListTruthy fs.execution_result = true →
        fs.explanation.isSome = true) →
      ((process_query caps q n).success = true → (process_query caps q n).error = none) ∧
        ((process_query caps q n).success = true →
          optListTruthy (process_query caps q n).execution_result = true →
          (process_query caps q n).explanation.isSome = true) := by
    intro fs hrun h1 h2
    have hpq : process_query caps q n =
        ⟨fs.generated_sql, fs.execution_result, fs.explanation, fs.success, fs.error⟩ := by
      unfold process_query
      rw [hrun]
    rw [hpq]
    exact ⟨h1, h2⟩
  have hrw2 : runWT (queryGraph caps) (initQState q n) =
      runAux (queryGraph caps) 5 ["get_schema", "get_rag_context"] "generate_sql"
        (get_rag_context_stage caps (get_schema_stage caps (initQState q n))) := by
    unfold runWT
    rw [show (queryGraph caps).stages.length + 1 = 6 + 1 from rfl,
      show (queryGraph caps).entry = "get_schema" from rfl]
    rw [runAux_step_go (queryGraph caps) 6 [] "get_schema" (initQState q n)
      (get_schema_stage caps) "get_rag_context" (by decide) rfl rfl]
    simp only [List.nil_append]
    rw [runAux_step_go (queryGraph caps) 5 ["get_schema"] "get_rag_context"
      (get_schema_stage caps (initQState q n)) (get_rag_context_stage caps)
      "generate_sql" (by decide) rfl rfl]
    simp only [List.cons_append, List.nil_append]
  have main : ∀ s2 : QState ρ, errOk s2 →
      runWT (queryGraph caps) (initQState q n) =
        runAux (queryGraph caps) 5 ["get_schema", "get_rag_context"] "generate_sql" s2 →
      ((process_query caps q n).success = true → (process_query caps q n).error = none) ∧
        ((process_query caps q n).success = true →
          optListTruthy (process_query caps q n).execution_result = true →
          (process_query caps q n).explanation.isSome = true) := by
    intro s2 herr2 hrw
    have herr3 : errOk (generate_sql_stage caps s2) := errOk_generate_sql caps s2 herr2
    by_cases hv : check_sql_validity (generate_sql_stage caps s2) = "valid"
    · -- valid: the run moves on to execute_query
      obtain ⟨hverr, hvgen⟩ := check_sql_validity_valid_inv _ hv
      have herr3none : (generate_sql_stage caps s2).error = none := by
        rcases herr3 with h0 | ⟨m, hm, hmne⟩
        · exact h0
        · exfalso
          rw [hm] at hverr
          simp [optStrTruthy] at hverr
          exact hmne hverr
      by_cases he : check_execution_success (execute_query_stage caps
          (generate_sql_stage caps s2)) = "success"
      · -- execution succeeded: terminal stage is explain_results
        obtain ⟨_, hsucc4⟩ := check_execution_success_inv _ he
        obtain ⟨rows, hexec, hs4eq⟩ := execute_stage_success_inv caps _ hsucc4
        have hrun : runW (queryGraph caps) (initQState q n) =
            .ok (explain_results_stage caps (execute_query_stage caps
              (generate_sql_stage caps s2))) := by
          unfold runW
          rw [hrw]
          rw [runAux_step_go (queryGraph caps) 4 ["get_schema", "get_rag_context"]
            "generate_sql" s2 (generate_sql_stage caps) "execute_query" (by decide)
            rfl (qnext_gen_valid caps _ hv)]
          simp only [List.cons_append, List.nil_append]
          rw [runAux_step_go (queryGraph caps) 3
            ["get_schema", "get_rag_context", "generate_sql"] "execute_query"
            (generate_sql_stage caps s2) (execute_query_stage caps) "explain_results"
            (by decide) rfl (qnext_exec_success caps _ he)]
          simp only [List.cons_append, List.nil_append]
          rw [runAux_step_end (queryGraph caps) 2
            ["get_schema", "get_rag_context", "generate_sql", "execute_query"]
            "explain_results" (execute_query_stage caps (generate_sql_stage caps s2))
            (explain_results_stage caps) (by decide) rfl rfl]
        have hs4err : (execute_query_stage caps (generate_sql_stage caps s2)).error = none := by
          rw [hs4eq]
          exact herr3none
        have hs4gen : optStrTruthy
            (execute_query_stage caps (generate_sql_stage caps s2)).generated_sql = true := by
          rw [hs4eq]
          exact hvgen
        by_cases ht : optListTruthy
            (execute_query_stage caps (generate_sql_stage caps s2)).execution_result = true
        · -- non-empty rows: explanation is written
          have hfs : explain_results_stage caps (execute_query_stage caps
              (generate_sql_stage caps s2)) =
              { execute_query_stage caps (generate_sql_stage caps s2) with
                  explanation := some (match caps.llm_explain_response with
                    | .ok t => pyStripS t
                    | .error _ => "Unable to generate explanation for the results.") } := by
            unfold explain_results_stage
            rw [ht, hs4gen]
            simp
          refine finish_ok _ hrun (fun _ => ?_) (fun _ _ => ?_)
          · rw [hfs]
            exact hs4err
          · rw [hfs]
            rfl
        · -- empty rows: state returned unchanged, success already true
          have hfs : explain_results_stage caps (execute_query_stage caps
              (generate_sql_stage caps s2)) =
              execute_query_stage caps (generate_sql_stage caps s2) := by
            unfold explain_results_stage
            rw [show optListTruthy (execute_query_stage caps
              (generate_sql_stage caps s2)).execution_result = false by
                simpa using ht]
            simp
          refine finish_ok _ hrun (fun _ => ?_) (fun _ ht2 => ?_)
          · rw [hfs]
            exact hs4err
          · exfalso
            rw [hfs] at ht2
            exact ht (by simpa using ht2)
      · -- execution failed: terminal stage is handle_error
        have hrun : runW (queryGraph caps) (initQState q n) =
            .ok (handle_error_stage (execute_query_stage caps
              (generate_sql_stage caps s2))) := by
          unfold runW
          rw [hrw]
          rw [runAux_step_go (queryGraph caps) 4 ["get_schema", "get_rag_context"]
            "generate_sql" s2 (generate_sql_stage caps) "execute_query" (by decide)
            rfl (qnext_gen_valid caps _ hv)]
          simp only [List.cons_append, List.nil_append]
          rw [runAux_step_go (queryGraph caps) 3
            ["get_schema", "get_rag_context", "generate_sql"] "execute_query"
            (generate_sql_stage caps s2) (execute_query_stage caps) "handle_error"
            (by decide) rfl (qnext_exec_error caps _ he)]
          simp only [List.cons_append, List.nil_append]
          rw [runAux_step_end (queryGraph caps) 2
            ["get_schema", "get_rag_context", "generate_sql", "execute_query"]
            "handle_error" (execute_query_stage caps (generate_sql_stage caps s2))
            handle_error_stage (by decide) rfl rfl]
        refine finish_ok _ hrun (fun hs => ?_) (fun hs _ => ?_) <;>
          · exfalso
            simp [handle_error_stage] at hs
    · -- invalid: the run moves to handle_error
      have hrun : runW (queryGraph caps) (initQState q n) =
          .ok (handle_error_stage (generate_sql_stage caps s2)) := by
        unfold runW
        rw [hrw]
        rw [runAux_step_go (queryGraph caps) 4 ["get_schema", "get_rag_context"]
          "generate_sql" s2 (generate_sql_stage caps) "handle_error" (by decide)
          rfl (qnext_gen_invalid caps _ hv)]
        simp only [List.cons_append, List.nil_append]
        rw [runAux_step_end (queryGraph caps) 3
          ["get_schema", "get_rag_context", "generate_sql"] "handle_error"
          (generate_sql_stage caps s2) handle_error_stage (by decide) rfl rfl]
      refine finish_ok _ hrun (fun hs => ?_) (fun hs _ => ?_) <;>
        · exfalso
          simp [handle_error_stage] at hs
  exact main _ (errOk_get_rag_context _ _ (errOk_get_schema _ _ (Or.inl rfl))) hrw2

/-! ### Ingestion-pipeline run shapes (claims C5, C6, C10) -/

/-- Whether a capability call returned normally. -/
def exceptOk : Except ε α → Bool
  | .ok _ => true
  | .error _ => false

/-- `uploadNext` at `create_documents`, success branch. -/
theorem unext_create_success (caps : UploadCaps) (st : UState)
    (h : check_documents_created st = "success") :
    (uploadGraph caps).next "create_documents" st = some "add_to_vector_store" := by
  show uploadNext "create_documents" st = some "add_to_vector_store"
  unfold uploadNext
  rw [if_neg (by decide), if_neg (by decide), if_pos rfl, if_pos h]

/-- `uploadNext` at `create_documents`, error branch. -/
theorem unext_create_error (caps : UploadCaps) (st : UState)
    (h : ¬ check_documents_created st = "success") :
    (uploadGraph caps).next "create_documents" st = some "handle_error" := by
  show uploadNext "create_documents" st = some "handle_error"
  unfold uploadNext
  rw [if_neg (by decide), if_neg (by decide), if_pos rfl, if_neg h]

/-- `uploadNext` at `add_to_vector_store`, success branch (terminal). -/
theorem unext_add_success (caps : UploadCaps) (st : UState)
    (h : check_upload_success st = "success") :
    (uploadGraph caps).next "add_to_vector_store" st = none := by
  show uploadNext "add_to_vector_store" st = none
  unfold uploadNext
  rw [if_neg (by decide), if_neg (by decide), if_neg (by decide), if_pos rfl, if_pos h]

/-- `uploadNext` at `add_to_vector_store`, error branch. -/
theorem unext_add_error (caps : UploadCaps) (st : UState)
    (h : ¬ check_upload_success st = "success") :
    (uploadGraph caps).next "add_to_vector_store" st = some "handle_error" := by
  show uploadNext "add_to_vector_store" st = some "handle_error"
  unfold uploadNext
  rw [if_neg (by decide), if_neg (by decide), if_neg (by decide), if_pos rfl, if_neg h]

/-- The unconditional first two steps of every ingestion run. -/
theorem upload_run_first_two (caps : UploadCaps) (files : List InFile) :
    runWT (uploadGraph caps) (initUState files) =
      runAux (uploadGraph caps) 4 ["validate_files", "extract_text"] "create_documents"
        (extract_text_stage caps (validate_files_stage (initUState files))) := by
  unfold runWT
  rw [show (uploadGraph caps).stages.length + 1 = 5 + 1 from rfl,
    show (uploadGraph caps).entry = "validate_files" from rfl]
  rw [runAux_step_go (uploadGraph caps) 5 [] "validate_files" (initUState files)
    validate_files_stage "extract_text" (by decide) rfl rfl]
  simp only [List.nil_append]
  rw [runAux_step_go (uploadGraph caps) 4 ["validate_files"] "extract_text"
    (validate_files_stage (initUState files)) (extract_text_stage caps)
    "create_documents" (by decide) rfl rfl]
  simp only [List.cons_append, List.nil_append]

/-- Run shape when document creation does not check out: the run ends in
`handle_error` right after `create_documents`. -/
theorem upload_run_docs_error (caps : UploadCaps) (files : List InFile)
    (h : ¬ check_documents_created (create_documents_stage caps (extract_text_stage caps
      (validate_files_stage (initUState files)))) = "success") :
    runWT (uploadGraph caps) (initUState files) =
      (.ok (handle_error_upload_stage (create_documents_stage caps (extract_text_stage caps
          (validate_files_stage (initUState files))))),
        ["validate_files", "extract_text", "create_documents", "handle_error"]) := by
  rw [upload_run_first_two caps files]
  rw [runAux_step_go (uploadGraph caps) 3 ["validate_files", "extract_text"]
    "create_documents" (extract_text_stage caps (validate_files_stage (initUState files)))
    (create_documents_stage caps) "handle_error" (by decide) rfl
    (unext_create_error caps _ h)]
  simp only [List.cons_append, List.nil_append]
  rw [runAux_step_end (uploadGraph caps) 2
    ["validate_files", "extract_text", "create_documents"] "handle_error"
    (create_documents_stage caps (extract_text_stage caps
      (validate_files_stage (initUState files))))
    handle_error_upload_stage (by decide) rfl rfl]
  simp only [List.cons_append, List.nil_append]

/-- Run shape of a fully successful ingestion: the run ends at the
`add_to_vector_store` terminal edge. -/
theorem upload_run_success (caps : UploadCaps) (files : List InFile)
    (h1 : check_documents_created (create_documents_stage caps (extract_text_stage caps
      (validate_files_stage (initUState files)))) = "success")
    (h2 : check_upload_success (add_to_vector_store_stage caps (create_documents_stage caps
      (extract_text_stage caps (validate_files_stage (initUState files))))) = "success") :
    runWT (uploadGraph caps) (initUState files) =
      (.ok (add_to_vector_store_stage caps (create_documents_stage caps
          (extract_text_stage caps (validate_files_stage (initUState files))))),
        ["validate_files", "extract_text", "create_documents", "add_to_vector_store"]) := by
  rw [upload_run_first_two caps files]
  rw [runAux_step_go (uploadGraph caps) 3 ["validate_files", "extract_text"]
    "create_documents" (extract_text_stage caps (validate_files_stage (initUState files)))
    (create_documents_stage caps) "add_to_vector_store" (by decide) rfl
    (unext_create_success caps _ h1)]
  simp only [List.cons_append, List.nil_append]
  rw [runAux_step_end (uploadGraph caps) 2
    ["validate_files", "extract_text", "create_documents"] "add_to_vector_store"
    (create_documents_stage caps (extract_text_stage caps
      (validate_files_stage (initUState files))))
    (add_to_vector_store_stage caps) (by decide) rfl (unext_add_success caps _ h2)]
  simp only [List.cons_append, List.nil_append]

/-- Run shape when batch insertion does not check out: the run ends in
`handle_error` after `add_to_vector_store`. -/
theorem upload_run_add_error (caps : UploadCaps) (files : List InFile)
    (h1 : check_documents_created (create_documents_stage caps (extract_text_stage caps
      (validate_files_stage (initUState files)))) = "success")
    (h2 : ¬ check_upload_success (add_to_vector_store_stage caps (create_documents_stage caps
      (extract_text_stage caps (validate_files_stage (initUState files))))) = "success") :
    runWT (uploadGraph caps) (initUState files) =
      (.ok (handle_error_upload_stage (add_to_vector_store_stage caps
          (create_documents_stage caps (extract_text_stage caps
            (validate_files_stage (initUState files)))))),
        ["validate_files", "extract_text", "create_documents", "add_to_vector_store",
          "handle_error"]) := by
  rw [upload_run_first_two caps files]
  rw [runAux_step_go (uploadGraph caps) 3 ["validate_files", "extract_text"]
    "create_documents" (extract_text_stage caps (validate_files_stage (initUState files)))
    (create_documents_stage caps) "add_to_vector_store" (by decide) rfl
    (unext_create_success caps _ h1)]
  simp only [List.cons_append, List.nil_append]
  rw [runAux_step_go (uploadGraph caps) 2
    ["validate_files", "extract_text", "create_documents"] "add_to_vector_store"
    (create_documents_stage caps (extract_text_stage caps
      (validate_files_stage (initUState files))))
    (add_to_vector_store_stage caps) "handle_error" (by decide) rfl
    (unext_add_error caps _ h2)]
  simp only [List.cons_append, List.nil_append]
  rw [runAux_step_end (uploadGraph caps) 1
    ["validate_files", "extract_text", "create_documents", "add_to_vector_store"]
    "handle_error"
    (add_to_vector_store_stage caps (create_documents_stage caps
      (extract_text_stage caps (validate_files_stage (initUState files)))))
    handle_error_upload_stage (by decide) rfl rfl]
  simp only [List.cons_append, List.nil_append]

/-- After validation the state's `files` list is exactly the validated
list, whether or not the empty-input error branch fired. -/
theorem validate_stage_files (files : List InFile) :
    (validate_files_stage (initUState files)).files = validate_files_list files := by
  unfold validate_files_stage
  simp only [show (initUState files).files = files from rfl]
  by_cases hfe : files.isEmpty = true
  · rw [if_pos hfe]
    have h0 : files = [] := by simpa using hfe
    subst h0
    rfl
  · rw [if_neg hfe]

/-- The extract stage never changes the `files` list. -/
theorem extract_stage_files (caps : UploadCaps) (st : UState) :
    (extract_text_stage caps st).files = st.files := by
  unfold extract_text_stage
  by_cases hfe : st.files.isEmpty = true
  · rw [if_pos hfe]
  · rw [if_neg hfe]

/-- The create stage never changes the `files` list. -/
theorem create_stage_files (caps : UploadCaps) (st : UState) :
    (create_documents_stage caps st).files = st.files := by
  unfold create_documents_stage
  by_cases hfe : st.extracted_texts.isEmpty = true
  · rw [if_pos hfe]
  · rw [if_neg hfe]

/-- The insertion stage never changes the `files` list. -/
theorem add_stage_files (caps : UploadCaps) (st : UState) :
    (add_to_vector_store_stage caps st).files = st.files := by
  simp only [add_to_vector_store_stage]
  by_cases h1 : (st.processed_documents.getD []).isEmpty = true
  · rw [if_pos h1]
  · rw [if_neg h1]
    cases h2 : caps.vector_store_available with
    | false => rfl
    | true =>
      cases caps.add_documents (st.processed_documents.getD []) with
      | ok u => rfl
      | error e => rfl

/-- The validate stage on a non-empty input replaces `files` with the
validated list. -/
theorem validate_stage_eq (files : List InFile) (h : files ≠ []) :
    validate_files_stage (initUState files) =
      { initUState files with files := validate_files_list files } := by
  unfold validate_files_stage
  simp only [show (initUState files).files = files from rfl]
  rw [if_neg (by simpa using h)]

/-- The extract stage on a state with files replaces `extracted_texts`
with the per-file extraction outcomes. -/
theorem extract_stage_eq (caps : UploadCaps) (st : UState) (h : st.files ≠ []) :
    extract_text_stage caps st =
      { st with extracted_texts := st.files.map (extract_file caps) } := by
  unfold extract_text_stage
  rw [if_neg (by simpa using h)]

/-- The per-chunk success records emitted by `add_to_vector_store`. -/
def success_records (docs : List Doc) : List UResultRec :=
  docs.map (fun d =>
    ⟨d.filename, "success", "File processed successfully", some d.page_content.length⟩)

/-- The per-file failure records emitted by `handle_error`. -/
def error_records (files : List InFile) (msg : String) : List UResultRec :=
  files.map (fun f => ⟨f.filename.getD "unknown", "error", msg, none⟩)

/-- The create stage on a state with extracted texts stores the split
documents. -/
theorem create_stage_eq (caps : UploadCaps) (st : UState)
    (h : st.extracted_texts ≠ []) :
    create_documents_stage caps st =
      { st with
          processed_documents := some (caps.split_documents (build_documents st.extracted_texts)) } := by
  simp only [create_documents_stage]
  rw [if_neg (by simpa using h)]

/-- The insertion stage when the store is available and the batch call
succeeds: one success record per chunk, `success := true`. -/
theorem add_stage_ok_eq (caps : UploadCaps) (st : UState)
    (h1 : st.processed_documents.getD [] ≠ [])
    (h2 : caps.vector_store_available = true)
    (h3 : caps.add_documents (st.processed_documents.getD []) = .ok ()) :
    add_to_vector_store_stage caps st =
      { st with
          results := some (success_records (st.processed_documents.getD []))
          success := true } := by
  simp only [add_to_vector_store_stage]
  rw [if_neg (by simpa using h1)]
  rw [show (!caps.vector_store_available) = false by simp [h2], if_neg (by simp)]
  rw [h3]
  rfl

/-- `handle_error` emits one failure record per entry of the state's
current `files` list. -/
theorem handle_stage_results (st : UState) :
    (handle_error_upload_stage st).results =
      some (error_records st.files (st.error.getD "Unknown error occurred")) :=
  rfl

/-- Splitting a list by a Bool predicate partitions its length. -/
theorem length_filter_add_length_filter_not (p : α → Bool) (l : List α) :
    (l.filter p).length + (l.filter (fun a => !(p a))).length = l.length := by
  induction l with
  | nil => rfl
  | cons a t ih =>
    cases hp : p a <;> simp [List.filter_cons, hp, ← ih] <;> omega

/-- `build_documents` keeps an entry whose error annotation is falsy. -/
theorem build_documents_cons_ok (t : TextRec) (ts : List TextRec)
    (h : optStrTruthy t.error = false) :
    build_documents (t :: ts) =
      ⟨t.text, t.filename, t.extension, "upload"⟩ :: build_documents ts := by
  unfold build_documents
  rw [List.filter_cons]
  simp [h]

/-- `build_documents` drops an entry whose error annotation is truthy. -/
theorem build_documents_cons_err (t : TextRec) (ts : List TextRec)
    (h : optStrTruthy t.error = true) :
    build_documents (t :: ts) = build_documents ts := by
  unfold build_documents
  rw [List.filter_cons]
  simp [h]

/-- Documents are built from exactly the cleanly-extracted files, in
order (given non-empty extraction error messages, as `str(e)` of a real
exception). -/
theorem build_documents_map_extract (caps : UploadCaps) (l : List InFile)
    (hmsg : ∀ f ∈ l, ∀ e,
      caps.extract_text_from_file (f.content.getD "") (f.extension.getD "") = .error e →
        e ≠ "") :
    build_documents (l.map (extract_file caps)) =
      (l.filter (fun f =>
        exceptOk (caps.extract_text_from_file (f.content.getD "") (f.extension.getD "")))).map
        (fun f => ⟨(extract_file caps f).text, (extract_file caps f).filename,
                   (extract_file caps f).extension, "upload"⟩) := by
  induction l with
  | nil => rfl
  | cons f fs ih =>
    have ihh := ih (fun g hg e he => hmsg g (List.mem_cons_of_mem f hg) e he)
    cases hex : caps.extract_text_from_file (f.content.getD "") (f.extension.getD "") with
    | ok txt =>
      have ht : extract_file caps f =
          ⟨f.filename.getD "", txt, f.extension.getD "", none⟩ := by
        simp [extract_file, hex]
      have hp : exceptOk (caps.extract_text_from_file (f.content.getD "")
          (f.extension.getD "")) = true := by
        simp [exceptOk, hex]
      simp only [List.map_cons, ht]
      rw [build_documents_cons_ok _ _ (by simp [optStrTruthy])]
      rw [List.filter_cons]
      simp only [hp, if_true, List.map_cons, ht, ihh]
    | error e =>
      have hne := hmsg f (List.mem_cons_self f fs) e hex
      have ht : extract_file caps f =
          ⟨f.filename.getD "", "Failed to extract text: " ++ e,
           f.extension.getD "", some e⟩ := by
        simp [extract_file, hex]
      have hp : exceptOk (caps.extract_text_from_file (f.content.getD "")
          (f.extension.getD "")) = false := by
        simp [exceptOk, hex]
      simp only [List.map_cons, ht]
      rw [build_documents_cons_err _ _ (by simp [optStrTruthy, hne])]
      rw [List.filter_cons]
      simp only [hp, Bool.false_eq_true, if_false]
      exact ihh

/-- Validation keeps every entry with a truthy filename and content, so
the validated list has the same length as the input. -/
theorem validate_files_list_length (files : List InFile)
    (hvalid : ∀ f ∈ files,
      optStrTruthy f.filename = true ∧ optStrTruthy f.content = true) :
    (validate_files_list files).length = files.length := by
  induction files with
  | nil => rfl
  | cons f fs ih =>
    obtain ⟨h1, h2⟩ := hvalid f (List.mem_cons_self f fs)
    have ihh := ih (fun g hg => hvalid g (List.mem_cons_of_mem f hg))
    cases hf : f.filename with
    | none => rw [hf] at h1; simp [optStrTruthy] at h1
    | some fn =>
      cases hc : f.content with
      | none => rw [hc] at h2; simp [optStrTruthy] at h2
      | some c =>
        rw [hf] at h1
        rw [hc] at h2
        have hfn : (fn == "") = false := by simpa [optStrTruthy] using h1
        have hcn : (c == "") = false := by simpa [optStrTruthy] using h2
        unfold validate_files_list at ihh ⊢
        rw [List.filterMap_cons]
        simp only [hf, hc, hfn, hcn, Bool.or_self, Bool.false_eq_true, if_false,
          List.length_cons]
        omega

/-- Capabilities whose execution returns an empty row list. -/
def c9Caps : QueryCaps Nat :=
  { get_schema := .ok c1Schema
    get_query_context := .ok ⟨[], [], c1Schema⟩
    llm_sql_response := .ok "SELECT id FROM users WHERE id < 0"
    execute := fun _ => .ok []
    llm_explain_response := .ok "no rows at all" }

/-- C9 counterexample: a successful run whose statement returns zero
rows ends with `success = true` but no explanation — the explain stage
returns the state unchanged when `execution_result` is empty (falsy), so
the explanation field is not populated on every successful run. -/
theorem c9_counterexample :
    (process_query c9Caps "q" 50).success = true ∧
      (process_query c9Caps "q" 50).explanation = none := by
  decide

/-- Witness for C9 (amended) on a successful run with one row. -/
theorem c9_success_means_no_error_and_explained_witness :
    (process_query c1Caps "list users" 50).error = none ∧
      (process_query c1Caps "list users" 50).explanation.isSome = true :=
  ⟨(c9_success_means_no_error_and_explained Nat c1Caps "list users" 50).1 (by decide),
   (c9_success_means_no_error_and_explained Nat c1Caps "list users" 50).2
     (by decide) (by decide)⟩

/-! ### Claims C5, C6, C10 -/

/-- Per-chunk success records count as successes, never as failures. -/
theorem success_records_counts (docs : List Doc) :
    ((success_records docs).filter (fun r => r.status == "success")).length = docs.length ∧
      ((success_records docs).filter (fun r => r.status == "error")).length = 0 := by
  constructor
  · rw [List.filter_eq_self.mpr ?_]
    · exact List.length_map ..
    · intro r hr
      obtain ⟨d, _, rfl⟩ := List.mem_map.1 hr
      rfl
  · rw [List.filter_eq_nil_iff.mpr ?_]
    · rfl
    · intro r hr
      obtain ⟨d, _, rfl⟩ := List.mem_map.1 hr
      simp

/-- The final state of a fully successful ingestion run. -/
theorem upload_happy_final (caps : UploadCaps) (files : List InFile)
    (hvne : validate_files_list files ≠ [])
    (hsplit : caps.split_documents (build_documents
      ((validate_files_list files).map (extract_file caps))) ≠ [])
    (hvec : caps.vector_store_available = true)
    (hadd : caps.add_documents (caps.split_documents (build_documents
      ((validate_files_list files).map (extract_file caps)))) = .ok ()) :
    runW (uploadGraph caps) (initUState files) = .ok
      { initUState files with
          files := validate_files_list files
          extracted_texts := (validate_files_list files).map (extract_file caps)
          processed_documents := some (caps.split_documents (build_documents
            ((validate_files_list files).map (extract_file caps))))
          results := some (success_records (caps.split_documents (build_documents
            ((validate_files_list files).map (extract_file caps)))))
          success := true } := by
  have hfne : files ≠ [] := by
    intro h0
    apply hvne
    rw [h0]
    rfl
  have e1 : validate_files_stage (initUState files) =
      { initUState files with files := validate_files_list files } :=
    validate_stage_eq files hfne
  have e2 : extract_text_stage caps
      { initUState files with files := validate_files_list files } =
      { initUState files with
          files := validate_files_list files
          extracted_texts := (validate_files_list files).map (extract_file caps) } :=
    extract_stage_eq caps _ hvne
  have e3 : create_documents_stage caps
      { initUState files with
          files := validate_files_list files
          extracted_texts := (validate_files_list files).map (extract_file caps) } =
      { initUState files with
          files := validate_files_list files
          extracted_texts := (validate_files_list files).map (extract_file caps)
          processed_documents := some (caps.split_documents (build_documents
            ((validate_files_list files).map (extract_file caps)))) } :=
    create_stage_eq caps _ (by simpa using hvne)
  have e4 : add_to_vector_store_stage caps
      { initUState files with
          files := validate_files_list files
          extracted_texts := (validate_files_list files).map (extract_file caps)
          processed_documents := some (caps.split_documents (build_documents
            ((validate_files_list files).map (extract_file caps)))) } =
      { initUState files with
          files := validate_files_list files
          extracted_texts := (validate_files_list files).map (extract_file caps)
          processed_documents := some (caps.split_documents (build_documents
            ((validate_files_list files).map (extract_file caps))))
          results := some (success_records (caps.split_documents (build_documents
            ((validate_files_list files).map (extract_file caps)))))
          success := true } :=
    add_stage_ok_eq caps _ hsplit hvec hadd
  have hd : (caps.split_documents (build_documents
      ((validate_files_list files).map (extract_file caps)))).isEmpty = false := by
    simpa using hsplit
  have hcheck1 : check_documents_created (create_documents_stage caps
      (extract_text_stage caps (validate_files_stage (initUState files)))) = "success" := by
    rw [e1, e2, e3]
    simp [check_documents_created, optStrTruthy, optListTruthy, initUState, hd]
  have hcheck2 : check_upload_success (add_to_vector_store_stage caps
      (create_documents_stage caps (extract_text_stage caps
        (validate_files_stage (initUState files))))) = "success" := by
    rw [e1, e2, e3, e4]
    simp [check_upload_success, optStrTruthy, initUState]
  unfold runW
  rw [upload_run_success caps files hcheck1 hcheck2]
  rw [show (Except.ok (add_to_vector_store_stage caps (create_documents_stage caps
      (extract_text_stage caps (validate_files_stage (initUState files))))),
    (["validate_files", "extract_text", "create_documents", "add_to_vector_store"] :
      List String)).1 = Except.ok (add_to_vector_store_stage caps
      (create_documents_stage caps (extract_text_stage caps
        (validate_files_stage (initUState files))))) from rfl]
  rw [e1, e2, e3, e4]

/-- C5: in the ingestion pipeline, with N valid submitted files of which
exactly M fail extraction (with non-empty error messages) and at least
one clean file, each failing file is recorded with a per-file error
annotation and excluded from document construction; documents are built
from exactly the N−M clean files; and the run still reports
`success = true` when the chunks are non-empty, the store is available
and the insertion call succeeds. -/
theorem c5_partial_failure_isolation (caps : UploadCaps) (files : List InFile)
    (hvalid : ∀ f ∈ files,
      optStrTruthy f.filename = true ∧ optStrTruthy f.content = true)
    (hmsg : ∀ f ∈ validate_files_list files, ∀ e,
      caps.extract_text_from_file (f.content.getD "") (f.extension.getD "") = .error e →
        e ≠ "")
    (hclean : ((validate_files_list files).filter (fun f =>
      exceptOk (caps.extract_text_from_file (f.content.getD "")
        (f.extension.getD "")))).length ≠ 0)
    (hsplit : caps.split_documents (build_documents
      ((validate_files_list files).map (extract_file caps))) ≠ [])
    (hvec : caps.vector_store_available = true)
    (hadd : caps.add_documents (caps.split_documents (build_documents
      ((validate_files_list files).map (extract_file caps)))) = .ok ()) :
    (validate_files_list files).length = files.length ∧
      (∀ f ∈ validate_files_list files, ∀ e,
        caps.extract_text_from_file (f.content.getD "") (f.extension.getD "") = .error e →
          (extract_file caps f).error = some e) ∧
      build_documents ((validate_files_list files).map (extract_file caps)) =
        ((validate_files_list files).filter (fun f =>
          exceptOk (caps.extract_text_from_file (f.content.getD "")
            (f.extension.getD "")))).map
          (fun f => ⟨(extract_file caps f).text, (extract_file caps f).filename,
                     (extract_file caps f).extension, "upload"⟩) ∧
      (build_documents ((validate_files_list files).map (extract_file caps))).length +
        ((validate_files_list files).filter (fun f =>
          !(exceptOk (caps.extract_text_from_file (f.content.getD "")
            (f.extension.getD ""))))).length =
        (validate_files_list files).length ∧
      (process_upload caps files).success = true := by
  have hvne : validate_files_list files ≠ [] := by
    intro h0
    rw [h0] at hclean
    simp at hclean
  have hbd := build_documents_map_extract caps (validate_files_list files) hmsg
  refine ⟨validate_files_list_length files hvalid, ?_, hbd, ?_, ?_⟩
  · intro f hf e he
    simp [extract_file, he]
  · rw [hbd, List.length_map]
    exact length_filter_add_length_filter_not _ _
  · have hrun := upload_happy_final caps files hvne hsplit hvec hadd
    unfold process_upload
    rw [hrun]

/-- Witness files for C5/C10: two valid text files. -/
def c5Files : List InFile :=
  [⟨some "a.txt", some "hello", none, none⟩, ⟨some "c.txt", some "world", none, none⟩]

/-- Witness capabilities for C5: extraction fails on the first file only. -/
def c5Caps : UploadCaps :=
  { extract_text_from_file := fun c _ => if c == "hello" then .error "bad file" else .ok c
    split_documents := fun l => l
    vector_store_available := true
    add_documents := fun _ => .ok () }

/-- Witness for C5: two valid files, one failing extraction. -/
theorem c5_partial_failure_isolation_witness :
    (validate_files_list c5Files).length = c5Files.length ∧
      (∀ f ∈ validate_files_list c5Files, ∀ e,
        c5Caps.extract_text_from_file (f.content.getD "") (f.extension.getD "") = .error e →
          (extract_file c5Caps f).error = some e) ∧
      build_documents ((validate_files_list c5Files).map (extract_file c5Caps)) =
        ((validate_files_list c5Files).filter (fun f =>
          exceptOk (c5Caps.extract_text_from_file (f.content.getD "")
            (f.extension.getD "")))).map
          (fun f => ⟨(extract_file c5Caps f).text, (extract_file c5Caps f).filename,
                     (extract_file c5Caps f).extension, "upload"⟩) ∧
      (build_documents ((validate_files_list c5Files).map (extract_file c5Caps))).length +
        ((validate_files_list c5Files).filter (fun f =>
          !(exceptOk (c5Caps.extract_text_from_file (f.content.getD "")
            (f.extension.getD ""))))).length =
        (validate_files_list c5Files).length ∧
      (process_upload c5Caps c5Files).success = true :=
  c5_partial_failure_isolation c5Caps c5Files (by decide)
    (by
      intro f hf e he
      simp only [c5Caps] at he
      by_cases hc : (f.content.getD "" == "hello") = true
      · rw [if_pos hc] at he
        injection he with h2
        subst h2
        decide
      · rw [if_neg hc] at he
        simp at he)
    (by decide) (by decide) (by decide) (by decide)

/-- C10: `processed_files` always counts the originally submitted files,
for every capability set and file list; on a fully successful run the
`successful` count equals the number of chunks produced by splitting
(which the witness shows can exceed the number of submitted files) and
`failed` is zero. -/
theorem c10_processed_files_vs_chunk_counts (caps : UploadCaps) (files : List InFile)
    (hvne : validate_files_list files ≠ [])
    (hsplit : caps.split_documents (build_documents
      ((validate_files_list files).map (extract_file caps))) ≠ [])
    (hvec : caps.vector_store_available = true)
    (hadd : caps.add_documents (caps.split_documents (build_documents
      ((validate_files_list files).map (extract_file caps)))) = .ok ()) :
    (∀ (caps2 : UploadCaps) (files2 : List InFile),
      (process_upload caps2 files2).processed_files = files2.length) ∧
      (process_upload caps files).successful =
        (caps.split_documents (build_documents
          ((validate_files_list files).map (extract_file caps)))).length ∧
      (process_upload caps files).failed = 0 ∧
      (process_upload caps files).success = true := by
  have hgen : ∀ (caps2 : UploadCaps) (files2 : List InFile),
      (process_upload caps2 files2).processed_files = files2.length := by
    intro caps2 files2
    unfold process_upload
    cases runW (uploadGraph caps2) (initUState files2) with
    | ok fs => rfl
    | error e => rfl
  have hrun := upload_happy_final caps files hvne hsplit hvec hadd
  obtain ⟨hcnt1, hcnt2⟩ := success_records_counts (caps.split_documents
    (build_documents ((validate_files_list files).map (extract_file caps))))
  refine ⟨hgen, ?_, ?_, ?_⟩
  · unfold process_upload
    rw [hrun]
    exact hcnt1
  · unfold process_upload
    rw [hrun]
    exact hcnt2
  · unfold process_upload
    rw [hrun]

/-- Witness capabilities for C10: the splitter doubles every document,
so the chunk count (4) exceeds the submitted file count (2). -/
def c10Caps : UploadCaps :=
  { extract_text_from_file := fun c _ => .ok c
    split_documents := fun l => l ++ l
    vector_store_available := true
    add_documents := fun _ => .ok () }

/-- Witness for C10: 2 submitted files, 4 chunks, all successful. -/
theorem c10_processed_files_vs_chunk_counts_witness :
    (∀ (caps2 : UploadCaps) (files2 : List InFile),
      (process_upload caps2 files2).processed_files = files2.length) ∧
      (process_upload c10Caps c5Files).successful =
        (c10Caps.split_documents (build_documents
          ((validate_files_list c5Files).map (extract_file c10Caps)))).length ∧
      (process_upload c10Caps c5Files).failed = 0 ∧
      (process_upload c10Caps c5Files).success = true :=
  c10_processed_files_vs_chunk_counts c10Caps c5Files (by decide) (by decide)
    (by decide) (by decide)

/-- Two submitted files: a valid one and one with no content (dropped by
validation). -/
def c6Files : List InFile :=
  [⟨some "a.txt", some "hello", none, none⟩, ⟨some "b.txt", none, none, none⟩]

/-- Capabilities for the C6 scenario: extraction fails on every file, so
the run reaches `handle_error`. -/
def c6Caps : UploadCaps :=
  { extract_text_from_file := fun _ _ => .error "boom"
    split_documents := fun l => l
    vector_store_available := true
    add_documents := fun _ => .ok () }

/-- C6 counterexample: two files are submitted, one is dropped during
validation, the run ends at `handle_error` — yet the results list holds
only one failure record, not one per originally submitted file: the
error terminal iterates the state's `files` list, which validation has
already overwritten with the surviving entries. -/
theorem c6_counterexample :
    c6Files.length = 2 ∧
      "handle_error" ∈ process_upload_trace c6Caps c6Files ∧
      (process_upload c6Caps c6Files).results.length = 1 := by
  decide

/-- C6 (amended): whenever an ingestion run ends at the `handle_error`
terminal, the returned results list contains exactly one failure record
per file that survived validation (the state's current `files` list) —
which equals the originally submitted files only when validation dropped
none of them. -/
theorem c6_amended_one_record_per_validated_file (caps : UploadCaps)
    (files : List InFile)
    (h : "handle_error" ∈ process_upload_trace caps files) :
    (process_upload caps files).results.length = (validate_files_list files).length ∧
      ∀ r ∈ (process_upload caps files).results, r.status = "error" := by
  have conclude : ∀ st : UState,
      runW (uploadGraph caps) (initUState files) = .ok (handle_error_upload_stage st) →
      st.files = validate_files_list files →
      (process_upload caps files).results.length = (validate_files_list files).length ∧
        ∀ r ∈ (process_upload caps files).results, r.status = "error" := by
    intro st hrun hfiles
    have hres : (process_upload caps files).results =
        error_records (validate_files_list files)
          (st.error.getD "Unknown error occurred") := by
      unfold process_upload
      rw [hrun]
      simp only []
      rw [show (handle_error_upload_stage st).results =
        some (error_records st.files (st.error.getD "Unknown error occurred")) from
        handle_stage_results st]
      rw [hfiles]
      rfl
    rw [hres]
    constructor
    · exact List.length_map ..
    · intro r hr
      obtain ⟨f, _, rfl⟩ := List.mem_map.1 hr
      rfl
  unfold process_upload_trace at h
  by_cases h1 : check_documents_created (create_documents_stage caps
      (extract_text_stage caps (validate_files_stage (initUState files)))) = "success"
  · by_cases h2 : check_upload_success (add_to_vector_store_stage caps
        (create_documents_stage caps (extract_text_stage caps
          (validate_files_stage (initUState files))))) = "success"
    · rw [upload_run_success caps files h1 h2] at h
      simp at h
    · refine conclude (add_to_vector_store_stage caps (create_documents_stage caps
        (extract_text_stage caps (validate_files_stage (initUState files))))) ?_ ?_
      · unfold runW
        rw [upload_run_add_error caps files h1 h2]
      · rw [add_stage_files, create_stage_files, extract_stage_files,
          validate_stage_files]
  · refine conclude (create_documents_stage caps (extract_text_stage caps
      (validate_files_stage (initUState files)))) ?_ ?_
    · unfold runW
      rw [upload_run_docs_error caps files h1]
    · rw [create_stage_files, extract_stage_files, validate_stage_files]

/-- Witness for C6 (amended) at the concrete failing-extraction run. -/
theorem c6_amended_one_record_per_validated_file_witness :
    (process_upload c6Caps c6Files).results.length =
        (validate_files_list c6Files).length ∧
      ∀ r ∈ (process_upload c6Caps c6Files).results, r.status = "error" :=
  c6_amended_one_record_per_validated_file c6Caps c6Files (by decide)

end ChatDba
